import Mathlib

/-!
Shallow embedding of `sampletester/caserunner.py`: the case execution engine of
sample-tester.  Python values appearing in YAML directives and in the case
symbol table are modelled by `Value`; Python exceptions by `PyErr`; the mutable
`TestCase` object by the record `CaseState`; the external collaborators
(environment provider, subprocess launcher, `os.environ`, `uuid`, `re`, and the
embedded-`code` interpreter) by the oracle record `World`.  Each definition is
translated from the named function of the source file.
-/

namespace Caserunner

/-- Python values as they occur in parsed YAML directives, the symbol table and
directive arguments: `None`, booleans, integers, strings, lists, and
string-keyed mappings.  Bound methods seeded into the symbol table from the
builtins table are represented by `builtin name`. -/
inductive Value where
  | vnone
  | bool (b : Bool)
  | int (n : Int)
  | str (s : String)
  | list (l : List Value)
  | dict (l : List (String × Value))
  | builtin (name : String)

mutual

/-- Structural (Python `==`-style) equality on `Value`, used for dictionary
keys of the symbol table. -/
def vbeq : Value → Value → Bool
  | .vnone, .vnone => true
  | .bool a, .bool b => a == b
  | .int a, .int b => a == b
  | .str a, .str b => a == b
  | .list a, .list b => vbeqList a b
  | .dict a, .dict b => vbeqDict a b
  | .builtin a, .builtin b => a == b
  | _, _ => false

/-- Pointwise equality of value lists. -/
def vbeqList : List Value → List Value → Bool
  | [], [] => true
  | a :: as, b :: bs => vbeq a b && vbeqList as bs
  | _, _ => false

/-- Pointwise equality of string-keyed entry lists. -/
def vbeqDict : List (String × Value) → List (String × Value) → Bool
  | [], [] => true
  | (ka, va) :: as, (kb, vb) :: bs => ka == kb && vbeq va vb && vbeqDict as bs
  | _, _ => false

end

/-- Python truthiness of a `Value` (`if x:`). -/
def truthy : Value → Bool
  | .vnone => false
  | .bool b => b
  | .int n => n != 0
  | .str s => s != ""
  | .list l => !l.isEmpty
  | .dict l => !l.isEmpty
  | .builtin _ => true

mutual

/-- Python `repr` of a value (container elements are rendered with `repr`).
Tuples are rendered like lists; the exact rendering is only used inside
auto-generated messages whose text no claim inspects. -/
def pyRepr : Value → String
  | .vnone => "None"
  | .bool true => "True"
  | .bool false => "False"
  | .int n => toString n
  | .str s => "\x27" ++ s ++ "\x27"
  | .list l => "[" ++ pyReprList l ++ "]"
  | .dict l => "\x7b" ++ pyReprDict l ++ "\x7d"
  | .builtin name => "<bound method TestCase." ++ name ++ ">"

/-- Comma-joined `repr` of list elements. -/
def pyReprList : List Value → String
  | [] => ""
  | [v] => pyRepr v
  | v :: rest => pyRepr v ++ ", " ++ pyReprList rest

/-- Comma-joined `repr` of dictionary entries. -/
def pyReprDict : List (String × Value) → String
  | [] => ""
  | [(k, v)] => "\x27" ++ k ++ "\x27: " ++ pyRepr v
  | (k, v) :: rest => "\x27" ++ k ++ "\x27: " ++ pyRepr v ++ ", " ++ pyReprDict rest

end

/-- Python `str` of a value: identity on strings, `repr` otherwise. -/
def pyStr : Value → String
  | .str s => s
  | v => pyRepr v

/-- Python `len` of a value: defined for strings, lists and mappings. -/
def pyLen : Value → Option Nat
  | .str s => some s.length
  | .list l => some l.length
  | .dict l => some l.length
  | _ => none

/-- The Python exceptions raised and caught by the caserunner module.
`testFailure` is `TestFailure` (the stage-abort signal), `callError` and
`configError` the module classes of the same names; the rest are standard
Python exceptions.  `exn` covers remaining exception classes (only their
`repr` text is observable). -/
inductive PyErr where
  | testFailure
  | callError (msg : String)
  | configError (msg : String)
  | keyboardInterrupt
  | typeError (msg : String)
  | valueError (msg : String)
  | indexError (msg : String)
  | keyError (key : String)
  | exn (descr : String)

/-- `repr(e)` for a modelled exception, used in the UNHANDLED EXCEPTION paths. -/
def reprPyErr : PyErr → String
  | .testFailure => "TestFailure()"
  | .callError m => "CallError(" ++ m ++ ")"
  | .configError m => "ConfigError(" ++ m ++ ")"
  | .keyboardInterrupt => "KeyboardInterrupt()"
  | .typeError m => "TypeError(\x27" ++ m ++ "\x27)"
  | .valueError m => "ValueError(\x27" ++ m ++ "\x27)"
  | .indexError m => "IndexError(\x27" ++ m ++ "\x27)"
  | .keyError k => "KeyError(\x27" ++ k ++ "\x27)"
  | .exn d => d

/-- ASCII lower-casing of a character (`str.lower` restricted to ASCII). -/
def lowerChar (c : Char) : Char :=
  if 'A' ≤ c ∧ c ≤ 'Z' then Char.ofNat (c.toNat + 32) else c

/-- `str.lower` (ASCII). -/
def lowerStr (s : String) : String := ⟨s.data.map lowerChar⟩

/-- Whether `needle` begins `hay`. -/
def listLeadingOf : List Char → List Char → Bool
  | [], _ => true
  | _ :: _, [] => false
  | a :: as, b :: bs => a == b && listLeadingOf as bs

/-- Whether `needle` occurs contiguously inside the list. -/
def listOccursIn (needle : List Char) : List Char → Bool
  | [] => listLeadingOf needle []
  | c :: rest => listLeadingOf needle (c :: rest) || listOccursIn needle rest

/-- Python `needle in hay` for strings: contiguous-substring test. -/
def strContainsSub (hay needle : String) : Bool := listOccursIn needle.data hay.data

/-- The symbol table `local_symbols`: an insertion-ordered mapping from Python
values (keys are strings, except for the `None` key that `extract_match` can
create) to values. -/
def SymTable := List (Value × Value)

/-- Dictionary lookup (`d[k]` / `d.get(k)`). -/
def symGet (t : SymTable) (k : Value) : Option Value :=
  match t with
  | [] => none
  | (k0, v0) :: rest => if vbeq k0 k then some v0 else symGet rest k

/-- Dictionary update `d[k] = v`: overwrite in place, else append. -/
def symSet (t : SymTable) (k v : Value) : SymTable :=
  match t with
  | [] => [(k, v)]
  | (k0, v0) :: rest =>
      if vbeq k0 k then (k0, v) :: rest else (k0, v0) :: symSet rest k v

/-- Membership test `k in d`. -/
def symHas (t : SymTable) (k : Value) : Bool := (symGet t k).isSome

/-- Lookup in a string-keyed mapping value (directive argument blocks). -/
def dictGet (l : List (String × Value)) (k : String) : Option Value :=
  match l with
  | [] => none
  | (k0, v0) :: rest => if k0 == k then some v0 else dictGet rest k

/-!  ### Interpolation: `interpolate_symbols`

The source substitutes every match of the regular expression
`\x7b([^\x7d]+)\x7d` — an opening brace, one or more non-closing-brace
characters, a closing brace — by the resolver value of the inner text,
scanning left to right with non-overlapping matches.  `interpAux` is that
scan: the accumulator is `some acc` while inside a potential match whose
inner characters (reversed) are `acc`. -/

/-- The substitution scan of `interpolate_symbols`. -/
def interpAux (resolver : String → String) : List Char → Option (List Char) → List Char
  | [], none => []
  | [], some acc => '{' :: acc.reverse
  | c :: rest, none =>
      if c = '{' then interpAux resolver rest (some [])
      else c :: interpAux resolver rest none
  | c :: rest, some acc =>
      if c = '}' then
        if acc.isEmpty then '{' :: '}' :: interpAux resolver rest none
        else (resolver (⟨acc.reverse⟩ : String)).data ++ interpAux resolver rest none
      else interpAux resolver rest (some (c :: acc))

/-- `interpolate_symbols(msg, resolver)`: replace each `\x7bname\x7d` by
`resolver(name)`. -/
def interpolate_symbols (msg : String) (resolver : String → String) : String :=
  ⟨interpAux resolver msg.data none⟩

/-- `msg.count("\x7b\x7d")`: number of non-overlapping occurrences of the empty
placeholder, scanning left to right; the flag records a pending opening brace
from the previous position. -/
def countBracePairsAux : List Char → Bool → Nat
  | [], _ => 0
  | c :: rest, pending =>
      if pending then
        if c = '}' then countBracePairsAux rest false + 1
        else if c = '{' then countBracePairsAux rest true
        else countBracePairsAux rest false
      else
        if c = '{' then countBracePairsAux rest true
        else countBracePairsAux rest false

/-- `msg.count("\x7b\x7d")` itself. -/
def countBracePairs (l : List Char) : Nat := countBracePairsAux l false

/-- Python `str.format` restricted to the placeholder forms this module
produces: literal text, `\x7b\x7b` and `\x7d\x7d` escapes, and empty `\x7b\x7d`
fields consuming positional arguments in order.  A field with more positional
placeholders than arguments raises `IndexError`; a non-empty replacement field
or a lone brace is modelled as a format error (the module only ever formats
empty placeholders).  Written as a one-character scanner whose second argument
is the pending opening or closing brace seen at the previous position. -/
def pyFormatAux : List Char → Option Char → List Value → Except PyErr (List Char)
  | [], none, _ => .ok []
  | [], some b, _ =>
      if b = '{' then .error (.valueError "Single opening brace encountered in format string")
      else .error (.valueError "Single closing brace encountered in format string")
  | c :: rest, none, args =>
      if c = '{' then pyFormatAux rest (some '{') args
      else if c = '}' then pyFormatAux rest (some '}') args
      else (c :: ·) <$> pyFormatAux rest none args
  | c :: rest, some b, [] =>
      if b = '{' then
        if c = '{' then ('{' :: ·) <$> pyFormatAux rest none []
        else if c = '}' then .error (.indexError "Replacement index out of range")
        else .error (.valueError "unsupported replacement field")
      else
        if c = '}' then ('}' :: ·) <$> pyFormatAux rest none []
        else .error (.valueError "Single closing brace encountered in format string")
  | c :: rest, some b, a :: args2 =>
      if b = '{' then
        if c = '{' then ('{' :: ·) <$> pyFormatAux rest none (a :: args2)
        else if c = '}' then ((pyStr a).data ++ ·) <$> pyFormatAux rest none args2
        else .error (.valueError "unsupported replacement field")
      else
        if c = '}' then ('}' :: ·) <$> pyFormatAux rest none (a :: args2)
        else .error (.valueError "Single closing brace encountered in format string")

/-- `msg.format(*args)` for the templates this module builds. -/
def pyFormat (msg : String) (args : List Value) : Except PyErr String :=
  (fun l => (⟨l⟩ : String)) <$> pyFormatAux msg.data none args

/-- Repetition `s * n` of a string. -/
def strRepeat (s : String) (n : Nat) : String :=
  match n with
  | 0 => ""
  | n + 1 => s ++ strRepeat s n

/-- `TestCase.format_string(msg, *args)`: interpolate environment symbols, then
(if any positional arguments are present) count the `\x7b\x7d` placeholders,
append `": "` plus one `"\x7b\x7d "` per missing placeholder when there are
fewer placeholders than arguments, and apply `str.format`. -/
def format_string (resolver : String → String) (msg : String) (args : List Value) :
    Except PyErr String :=
  let msg := interpolate_symbols msg resolver
  if args.length = 0 then .ok msg
  else
    let count := countBracePairs msg.data
    let msg := if count < args.length then msg ++ ": " ++ strRepeat "{} " (args.length - count)
               else msg
    pyFormat msg args

/-!  ### TestCase state and the external world -/

/-- One recorded failure or error: `(status, message, args)` exactly as stored
by `record_failure` / `record_error` (the message is formatted only later). -/
structure FRec where
  status : String
  message : Value
  args : List Value

/-- The mutable attributes of a `TestCase` instance that `run` touches. -/
structure CaseState where
  failures : List FRec
  errors : List FRec
  output : String
  local_symbols : SymTable
  last_return_code : Int
  last_call_output : String

/-- Outcome of launching an external command (`subprocess.check_output` with
`stderr` merged).  `completed` covers both a zero exit and a
`CalledProcessError` (which still carries the captured output); `raised` covers
any other exception the launch re-raises, including `KeyboardInterrupt`. -/
inductive CmdResult where
  | completed (returnCode : Int) (output : String)
  | raised (e : PyErr)

/-- Modelled from the spec: effect of executing one embedded-`code` block
(`exec` and the Python interpreter are outside this repository).  Per the spec,
the block sees only the symbol table; through the bound directive functions
seeded there it can append failure/error records and transcript text, rebind
symbols, and raise any exception. -/
structure ExecEffect where
  symbols : SymTable
  newFailures : List FRec
  newErrors : List FRec
  newOutput : String
  exc : Option PyErr

/-- The external collaborators: the environment provider (`get_call`,
`get_symbol`, `get_testcase_settings`), `os.environ`, `uuid.uuid4`,
`subprocess`, `re.search` (returning the tuple of captured groups), and the
embedded-code interpreter. -/
structure World where
  getCall : List Value → List (String × Value) → Except String (String × Option String)
  runCmd : String → Option String → CmdResult
  envVar : String → Option String
  newUuid : String
  getSymbol : String → String
  settings : List (String × String)
  reSearch : String → String → Option (List (Option String))
  execCode : Value → SymTable → ExecEffect

/-- `record_failure(status, message, *args)`: append one failure record. -/
def record_failure (st : CaseState) (status : String) (message : Value)
    (args : List Value) : CaseState :=
  { st with failures := st.failures ++ [⟨status, message, args⟩] }

/-- `record_error(status, message, *args)`: append one error record. -/
def record_error (st : CaseState) (status : String) (message : Value)
    (args : List Value) : CaseState :=
  { st with errors := st.errors ++ [⟨status, message, args⟩] }

/-- `print_out(msg, *args)`: format and append to the transcript; a formatting
exception is re-raised. -/
def print_out (w : World) (st : CaseState) (msg : Value) (args : List Value) :
    CaseState × Option PyErr :=
  match format_string w.getSymbol (pyStr msg) args with
  | .ok s => ({ st with output := st.output ++ s ++ "\n" }, none)
  | .error e => (st, some e)

/-- `print_out(msg)` with no positional arguments: `format_string` returns
right after interpolation, so this cannot raise. -/
def printOutStr (w : World) (st : CaseState) (msg : String) : CaseState :=
  { st with output := st.output ++ interpolate_symbols msg w.getSymbol ++ "\n" }

/-- `expect(condition, message, *args)`: record a failure and log on a false
condition; execution continues (no stage abort). -/
def expect (w : World) (st : CaseState) (condition : Bool) (message : Value)
    (args : List Value) : CaseState × Option PyErr :=
  if condition then (st, none)
  else
    let st := record_failure st "FAILED EXPECTATION" message args
    print_out w st (.str "# FAILED EXPECTATION") (message :: args)

/-- `fail()`: `expect(False, "failure")`. -/
def failDirective (w : World) (st : CaseState) : CaseState × Option PyErr :=
  expect w st false (.str "failure") []

/-- `assert_that(condition, message, *args)`: on a false condition record a
failure, log, and raise `TestFailure` (the stage-abort signal).  The log line
is the string concatenation `"# FAILED ASSERTION: " + message`, so a non-string
message raises `TypeError` (after the failure is recorded). -/
def assert_that (w : World) (st : CaseState) (condition : Bool) (message : Value)
    (args : List Value) : CaseState × Option PyErr :=
  if condition then (st, none)
  else
    let st := record_failure st "FAILED ASSERTION" message args
    match message with
    | .str m =>
        match print_out w st (.str ("# FAILED ASSERTION: " ++ m)) args with
        | (st, none) => (st, some .testFailure)
        | (st, some e) => (st, some e)
    | _ => (st, some (.typeError "can only concatenate str (not other types) to str"))

/-- `abort()`: `assert_that(False, "abort called")`. -/
def abortDirective (w : World) (st : CaseState) : CaseState × Option PyErr :=
  assert_that w st false (.str "abort called") []

/-!  ### Process invocation and capture -/

/-- `_call_external(cmd, chdir)`: reset the last-call state, log the command,
launch it, and on completion (successful or not) capture exit code and merged
output, refresh `last_call_output` and the `_last_call_output` symbol, and
append the output to the transcript.  A non-zero exit additionally annotates
the transcript; only a launch exception propagates. -/
def call_external (w : World) (st : CaseState) (cmd : String) (chdir : Option String) :
    CaseState × Except PyErr (Int × String) :=
  let st := { st with last_return_code := 0, last_call_output := "" }
  let st := printOutStr w st ("\n# Calling: " ++ cmd)
  match w.runCmd cmd chdir with
  | .raised e => (st, .error e)
  | .completed rc out =>
      let st := if rc != 0 then { st with output := st.output ++ "# ... call did not succeed  " }
                else st
      let st := { st with
                  last_return_code := rc,
                  last_call_output := out,
                  local_symbols := symSet st.local_symbols (.str "_last_call_output") (.str out),
                  output := st.output ++ out }
      (st, .ok (rc, out))

/-- `call_allow_error(*args, **kwargs)`: resolve the call target through the
environment provider — a resolution failure raises `CallError` before
`_call_external` runs — then invoke it. -/
def call_allow_error (w : World) (st : CaseState) (args : List Value)
    (kwargs : List (String × Value)) : CaseState × Except PyErr (Int × String) :=
  match w.getCall args kwargs with
  | .error e => (st, .error (.callError ("could not resolve call: " ++ e)))
  | .ok (call, chdir) => call_external w st call chdir

/-- `call_no_error(*args, **kwargs)`: invoke, then assert a zero exit code. -/
def call_no_error (w : World) (st : CaseState) (args : List Value)
    (kwargs : List (String × Value)) : CaseState × Except PyErr String :=
  match call_allow_error w st args kwargs with
  | (st, .error e) => (st, .error e)
  | (st, .ok (rc, out)) =>
      match assert_that w st (rc == 0) (.str "call failed: \"{}\"") [.list args] with
      | (st, none) => (st, .ok out)
      | (st, some e) => (st, .error e)

/-- `shell(cmd, *args)`: format `cmd + " \x7b\x7d" * len(args)` with the
arguments and invoke the result unconditionally. -/
def shell (w : World) (st : CaseState) (args : List Value) :
    CaseState × Except PyErr (Int × String) :=
  match args with
  | [] => (st, .error (.typeError "shell() missing 1 required positional argument: cmd"))
  | cmd :: rest =>
      match cmd with
      | .str c =>
          match format_string w.getSymbol (c ++ strRepeat " {}" rest.length) rest with
          | .ok line => call_external w st line none
          | .error e => (st, .error e)
      | _ => (st, .error (.typeError "can only concatenate str (not other types) to str"))

/-!  ### Assertion / expectation engine -/

/-- `last_output_contains(substr, case_sensitive=False)`: substring test on the
most recent captured output, case-folded unless `case_sensitive`. -/
def last_output_contains (st : CaseState) (substr : Value) (case_sensitive : Bool) :
    Except PyErr Bool :=
  match substr with
  | .str s =>
      if case_sensitive then .ok (strContainsSub st.last_call_output s)
      else .ok (strContainsSub (lowerStr st.last_call_output) (lowerStr s))
  | _ => .error (.typeError "expected a string to test for containment")

/-- The two severities passed as `check` to `_check_several`:
`self.assert_that` or `self.expect`. -/
inductive Severity where
  | assertSev
  | expectSev

/-- The two aggregators passed as `which`: `all` or `any`. -/
inductive Agg where
  | aggAll
  | aggAny

/-- Dispatch on the `check` argument of `_check_several`. -/
def applySeverity (w : World) (st : CaseState) (check : Severity) (condition : Bool)
    (message : Value) (args : List Value) : CaseState × Option PyErr :=
  match check with
  | .assertSev => assert_that w st condition message args
  | .expectSev => expect w st condition message args

/-- The list comprehension `[condition(substr) for substr in values]`: every
element is evaluated (even under `any`), the first exception propagating. -/
def evalConditions (condition : Value → Except PyErr Bool) :
    List Value → Except PyErr (List Bool)
  | [] => .ok []
  | v :: rest =>
      (condition v).bind (fun b => (b :: ·) <$> evalConditions condition rest)

/-- `_check_several(check, which, condition, message, values)`: build the
default message when the given one is empty (the source interpolates the labels
and `values` into a fixed template with `str.format`; the result is spelled out
here), evaluate `condition` on each value, aggregate with `which`, and hand the
aggregate to the chosen severity.  The source guard rejecting an unknown
`check`/`which` is unreachable for the table-constructed checkers. -/
def check_several (w : World) (st : CaseState) (check : Severity) (which : Agg)
    (condition : Value → Except PyErr Bool) (message : Value) (values : List Value) :
    CaseState × Option PyErr :=
  match pyLen message with
  | none => (st, some (.typeError "object of this type has no len()"))
  | some n =>
      let label_check := match check with | .assertSev => "required" | .expectSev => "expected"
      let label_which := match which with | .aggAll => "all of" | .aggAny => "any of"
      let message := if n == 0 then
          Value.str (label_check ++ ", but did not find, " ++ label_which ++
            " the following values in the preceding output: " ++ pyStr (.list values))
        else message
      match evalConditions condition values with
      | .error e => (st, some e)
      | .ok bs =>
          let cond := match which with | .aggAll => bs.all id | .aggAny => bs.any id
          applySeverity w st check cond message []

/-- The checker closure returned by `contain_checker(check, which, contains)`,
applied to `*values, **kwargs`: pop the custom message out of `kwargs`
(`KEY_CONTAINS_MESSAGE = "message"`, default empty), read `case_sensitive` from
the remaining keyword arguments (default `False`), build the per-value
inclusion or exclusion condition over the last output, and run
`_check_several`. -/
def contain_checker_run (w : World) (st : CaseState) (check : Severity) (which : Agg)
    (contains : Bool) (values : List Value) (kwargs : List (String × Value)) :
    CaseState × Option PyErr :=
  let message := (dictGet kwargs "message").getD (.str "")
  let rest := kwargs.filter (fun p => p.1 ≠ "message")
  let case_sensitive := truthy ((dictGet rest "case_sensitive").getD (.bool false))
  let condition := fun substr =>
    match last_output_contains st substr case_sensitive with
    | .ok b => .ok (if contains then b else !b)
    | .error e => .error (e : PyErr)
  check_several w st check which condition message values

/-- `assert_success(message=[], *args)`: the assignment typo (`mesage`)
discards the substituted default, so the original `message` — the empty-list
default when no custom message is given — is what reaches `assert_that`. -/
def assert_success (w : World) (st : CaseState) (args : List Value) :
    CaseState × Option PyErr :=
  let message := args.headD (.list [])
  assert_that w st (st.last_return_code == 0) message args.tail

/-- `assert_failure(message=[], *args)`: here the default is substituted
correctly (`message or "expected last call to fail"`). -/
def assert_failure (w : World) (st : CaseState) (args : List Value) :
    CaseState × Option PyErr :=
  let message0 := args.headD (.list [])
  let message := if truthy message0 then message0 else Value.str "expected last call to fail"
  assert_that w st (st.last_return_code != 0) message args.tail

/-!  ### extract_match, env, uuid, and argument resolution -/

/-- Python iteration over a value (`for x in v`): lists yield their elements,
strings their characters, mappings their keys; other values raise `TypeError`. -/
def iterValue : Value → Except PyErr (List Value)
  | .list l => .ok l
  | .str s => .ok (s.data.map (fun c => Value.str (⟨[c]⟩ : String)))
  | .dict l => .ok (l.map (fun p => Value.str p.1))
  | _ => .error (.typeError "object is not iterable")

/-- A captured group as a Python value (`None` for an unmatched group). -/
def capValue : Option String → Value
  | some s => .str s
  | none => .vnone

/-- The group-assignment loop of `extract_match`: `for idx, name in
enumerate(group_variables): if len(captures) > idx: symbols[name] = captures[idx]`. -/
def assignGroups (t : SymTable) : List Value → List (Option String) → SymTable
  | [], _ => t
  | _, [] => t
  | n :: ns, c :: cs => assignGroups (symSet t n (capValue c)) ns cs

/-- `extract_match(pattern, variable=None, group_variables=None)`: validate the
argument shape (`ConfigError` when the pattern is missing, or when neither or
both of `variable`/`groups` are given), pre-bind every target name to `None`,
search the last output, and on a match with captures bind `variable` to the
first capture and/or each group name to its capture.  `re.search` is the
`World.reSearch` oracle (the `re` module is outside this repository). -/
def extract_match (w : World) (st : CaseState) (pattern variable_ group_variables : Value) :
    CaseState × Option PyErr :=
  if !truthy pattern then
    (st, some (.configError "extract_match requires pattern to match"))
  else if !truthy variable_ && !truthy group_variables then
    (st, some (.configError "extract_match requires variable or groups"))
  else if truthy variable_ && truthy group_variables then
    (st, some (.configError "extract_match cannot accept both variables and groups"))
  else
    let st := { st with local_symbols := symSet st.local_symbols variable_ .vnone }
    match (if truthy group_variables then iterValue group_variables else .ok []) with
    | .error e => (st, some e)
    | .ok names =>
        let st := { st with
          local_symbols := names.foldl (fun t n => symSet t n .vnone) st.local_symbols }
        match pattern with
        | .str p =>
            match w.reSearch p st.last_call_output with
            | some captures =>
                if captures.isEmpty then (st, none)
                else
                  let st := if truthy variable_ then
                      { st with local_symbols :=
                          symSet st.local_symbols variable_ (capValue (captures.headD none)) }
                    else st
                  let st := if truthy group_variables then
                      { st with local_symbols := assignGroups st.local_symbols names captures }
                    else st
                  (st, none)
            | none => (st, none)
        | _ => (st, some (.typeError "first argument must be string or compiled pattern"))

/-- `yaml_extract_match(parts)`: extract the `pattern`, `variable` and `groups`
keys (defaulting to `None`) as the positional arguments of `extract_match`.
The source returns `(args, None)`; `run_segment` then replaces the `None`
keyword mapping by the empty one. -/
def yaml_extract_match (parts : Value) : Except PyErr (List Value) :=
  match parts with
  | .dict l => .ok [(dictGet l "pattern").getD .vnone,
                    (dictGet l "variable").getD .vnone,
                    (dictGet l "groups").getD .vnone]
  | _ => .error (.exn "AttributeError: object has no attribute get")

/-- `params_for_set(parts)`: require at least two entries, then read the
`variable` and `name` keys (returned in that order). -/
def params_for_set (parts : Value) : Except PyErr (Value × Value) :=
  match pyLen parts with
  | none => .error (.typeError "object of this type has no len()")
  | some n =>
      if n < 2 then .error (.valueError "need both \"name\" and \"variable\"")
      else
        match parts with
        | .dict l =>
            match dictGet l "variable" with
            | none => .error (.keyError "variable")
            | some v =>
                match dictGet l "name" with
                | none => .error (.keyError "name")
                | some nm => .ok (v, nm)
        | _ => .error (.typeError "object is not subscriptable")

/-- A value usable as a Python dictionary key (lists and mappings are
unhashable). -/
def hashable : Value → Bool
  | .list _ => false
  | .dict _ => false
  | _ => true

/-- `get_variable_or_literal(map)`: a single-key mapping; key `variable` looks
the value up in the symbol table (`KeyError` when unbound), key `literal`
returns the value as is, any other key raises `ConfigError`; more than one key
raises `ValueError`.  The empty mapping leaves the result name unbound
(`UnboundLocalError`). -/
def get_variable_or_literal (st : CaseState) (map : Value) : Except PyErr Value :=
  match map with
  | .dict l =>
      if l.length > 1 then
        .error (.valueError
          "expected each element to contain only one of \"variable\", \"literal\"")
      else
        match l with
        | [] => .error (.exn "UnboundLocalError: local variable referenced before assignment")
        | (ty, item) :: _ =>
            if ty == "variable" then
              match symGet st.local_symbols item with
              | some v => .ok v
              | none => .error (.keyError (pyStr item))
            else if ty != "literal" then
              .error (.configError ("expected \"variable\" or \"literal\", got \"" ++ ty ++ "\""))
            else .ok item
  | _ => .error (.typeError "object of this type has no len()")

/-- `get_yaml_values(list)`: resolve each element with
`get_variable_or_literal`. -/
def get_yaml_values (st : CaseState) : List Value → Except PyErr (List Value)
  | [] => .ok []
  | m :: rest =>
      match get_variable_or_literal st m with
      | .error e => .error e
      | .ok v => (v :: ·) <$> get_yaml_values st rest

/-- `lookup_values(strings)`: for each element, its symbol-table value when
bound, else the double-quoted `str` of the element; unhashable elements raise
`TypeError` from the dictionary lookup. -/
def lookup_values (st : CaseState) : List Value → Except PyErr (List Value)
  | [] => .ok []
  | p :: rest =>
      if hashable p then
        ((((symGet st.local_symbols p).getD (.str ("\"" ++ pyStr p ++ "\""))) :: ·)) <$>
          lookup_values st rest
      else .error (.typeError "unhashable type")

/-- `yaml_args_string(parts)`: `None` or an empty block yields no arguments;
otherwise the first element is the template and the rest are resolved through
`lookup_values`.  (A plain-string block is indexed character-wise, exactly as
Python slicing does.) -/
def yaml_args_string (st : CaseState) (parts : Value) :
    Except PyErr (List Value × List (String × Value)) :=
  match parts with
  | .vnone => .ok ([], [])
  | .list [] => .ok ([], [])
  | .list (p0 :: rest) =>
      (fun vs => (p0 :: vs, [])) <$> lookup_values st rest
  | .str s =>
      match s.data with
      | [] => .ok ([], [])
      | c0 :: cs =>
          (fun vs => (Value.str (⟨[c0]⟩ : String) :: vs, [])) <$>
            lookup_values st (cs.map (fun c => Value.str (⟨[c]⟩ : String)))
  | .dict [] => .ok ([], [])
  | .dict _ => .error (.keyError "0")
  | _ => .error (.typeError "object of this type has no len()")

/-- Lookup in a string-to-string mapping (the suite settings). -/
def dictGet' (l : List (String × String)) (k : String) : Option String :=
  match l with
  | [] => none
  | (k0, v0) :: rest => if k0 == k then some v0 else dictGet' rest k

/-- `params[name] = get_variable_or_literal(value)` over the `params` block. -/
def paramsEntries (st : CaseState) :
    List (String × Value) → Except PyErr (List (String × Value))
  | [] => .ok []
  | (name, value) :: rest =>
      match get_variable_or_literal st value with
      | .error e => .error e
      | .ok v => ((name, v) :: ·) <$> paramsEntries st rest

/-- The `args` block resolution of `params_for_call` (same as
`get_yaml_values`, applied to an already-iterated list). -/
def get_yaml_values' (st : CaseState) : List Value → Except PyErr (List Value)
  | [] => .ok []
  | m :: rest =>
      match get_variable_or_literal st m with
      | .error e => .error e
      | .ok v => (v :: ·) <$> get_yaml_values' st rest

/-- The entry loop of `params_for_call` over `parts.items()`. -/
def paramsForCallLoop (st : CaseState) (key_cmd : String) (cmd : Value) :
    List (String × Value) → Except PyErr (List Value × List (String × Value))
  | [] => .ok ([], [])
  | (key, val) :: rest =>
      if key == key_cmd then
        if !vbeq val cmd then
          .error (.valueError ("encountered multiple \"- " ++ key_cmd ++ "\""))
        else paramsForCallLoop st key_cmd cmd rest
  else if key == "params" then
        match val with
        | .dict entries =>
            match paramsEntries st entries with
            | .error e => .error e
            | .ok ps =>
                match paramsForCallLoop st key_cmd cmd rest with
                | .error e => .error e
                | .ok (args, params) => .ok (args, ps ++ params)
        | _ => .error (.exn "AttributeError: object has no attribute items")
  else if key == "args" then
        match iterValue val with
        | .error e => .error e
        | .ok vals =>
            match get_yaml_values' st vals with
            | .error e => .error e
            | .ok as0 =>
                match paramsForCallLoop st key_cmd cmd rest with
                | .error e => .error e
                | .ok (args, params) => .ok (as0 ++ args, params)
  else .error (.valueError ("unknown argument to function call \"- " ++ key ++ "\""))

/-- `params_for_call(parts)`: look up the configured target-field name
(`call.target` setting, default `"target"`), require it to be present, then
collect positional `args` and keyword `params` entries, resolving each through
`get_variable_or_literal`; any other key raises `ValueError`.  A non-mapping
argument block fails with `TypeError`. -/
def params_for_call (w : World) (st : CaseState) (parts : Value) :
    Except PyErr (List Value × List (String × Value)) :=
  let key_cmd := (dictGet' w.settings "call.target").getD "target"
  match parts with
  | .dict l =>
      match dictGet l key_cmd with
      | none => .error (.valueError
          ("when calling artifacts, the first parameter must be \"- " ++ key_cmd ++ ": TARGET\""))
      | some cmd =>
          if l.length == 1 then .ok ([cmd], [])
          else
            match paramsForCallLoop st key_cmd cmd l with
            | .error e => .error e
            | .ok (args, params) => .ok (cmd :: args, params)
  | _ => .error (.typeError "argument block of a call directive must be a mapping")

/-- `string_and_params(name_label, parts)` with `strict=False` (the only use):
when the first list element is a mapping carrying `name_label`, split it off as
the custom message; resolve the remaining elements with `get_yaml_values`. -/
def string_and_params (st : CaseState) (name_label : String) (parts : Value) :
    Except PyErr (List Value × Value) :=
  match parts with
  | .list [] => .error (.indexError "list index out of range")
  | .list (p0 :: rest) =>
      match p0 with
      | .dict l =>
          match dictGet l name_label with
          | some nv => (fun ps => (ps, nv)) <$> get_yaml_values st rest
          | none => (fun ps => (ps, Value.str "")) <$> get_yaml_values st (p0 :: rest)
      | .str s =>
          if strContainsSub s name_label then
            .error (.typeError "string indices must be integers")
          else (fun ps => (ps, Value.str "")) <$> get_yaml_values st (p0 :: rest)
      | _ => .error (.typeError "argument of this type is not a container")
  | _ => .error (.indexError "object is not subscriptable")

/-- `params_for_contains(parts)`: split off the optional custom message, fix
`case_sensitive=False`, and pass the resolved values positionally. -/
def params_for_contains (st : CaseState) (parts : Value) :
    Except PyErr (List Value × List (String × Value)) :=
  match string_and_params st "message" parts with
  | .error e => .error e
  | .ok (params, message) =>
      .ok (params, [("case_sensitive", .bool false), ("message", message)])

/-- `execute(code)` — the `code` directive: run the block through the
embedded-interpreter oracle and fold its effect into the case state. -/
def execute (w : World) (st : CaseState) (code : Value) : CaseState × Option PyErr :=
  let eff := w.execCode code st.local_symbols
  ({ st with
     local_symbols := eff.symbols,
     failures := st.failures ++ eff.newFailures,
     errors := st.errors ++ eff.newErrors,
     output := st.output ++ eff.newOutput }, eff.exc)

/-!  ### Directive dispatch table and stage driver -/

/-- The handler (first component) of a builtins entry. -/
inductive Handler where
  | callNoError
  | callAllowError
  | shellH
  | getUuidH
  | getEnvH
  | printOutH
  | extractMatchH
  | codeH
  | failH
  | expectH
  | abortH
  | assertThatH
  | containH (which : Agg) (contains : Bool)
  | assertSuccessH
  | assertFailureH

/-- The `yaml_prep` (second component) of a builtins entry. -/
inductive AdapterTag where
  | paramsForCall
  | yamlArgsString
  | yamlGetUuid
  | yamlGetEnv
  | yamlExtractMatch
  | codeAdapter
  | paramsForContains

/-- A builtins entry value: either a plain value (the meta variables) or a
bound method. -/
inductive BuiltinVal where
  | val (v : Value)
  | func (h : Handler)

/-- One entry of the builtins table: the value/handler and the optional
argument adapter. -/
structure BuiltinEntry where
  value : BuiltinVal
  prep : Option AdapterTag

/-- The `self.builtins` table, in source order.  Entries whose `prep` is `none`
(the meta variables and the code-only failure functions) cannot be used as
declarative stage entries. -/
def builtins (idx : Int) (label : String) : List (String × BuiltinEntry) :=
  [("testcase_num", ⟨.val (.int idx), none⟩),
   ("testcase_id", ⟨.val (.str label), none⟩),
   ("_last_call_output", ⟨.val (.str ""), none⟩),
   ("call", ⟨.func .callNoError, some .paramsForCall⟩),
   ("call_may_fail", ⟨.func .callAllowError, some .paramsForCall⟩),
   ("shell", ⟨.func .shellH, some .yamlArgsString⟩),
   ("uuid", ⟨.func .getUuidH, some .yamlGetUuid⟩),
   ("env", ⟨.func .getEnvH, some .yamlGetEnv⟩),
   ("log", ⟨.func .printOutH, some .yamlArgsString⟩),
   ("extract_match", ⟨.func .extractMatchH, some .yamlExtractMatch⟩),
   ("code", ⟨.func .codeH, some .codeAdapter⟩),
   ("fail", ⟨.func .failH, none⟩),
   ("expect", ⟨.func .expectH, none⟩),
   ("abort", ⟨.func .abortH, none⟩),
   ("assert_that", ⟨.func .assertThatH, none⟩),
   ("assert_contains_any", ⟨.func (.containH .aggAny true), some .paramsForContains⟩),
   ("assert_excludes", ⟨.func (.containH .aggAll false), some .paramsForContains⟩),
   ("assert_not_contains", ⟨.func (.containH .aggAll false), some .paramsForContains⟩),
   ("assert_contains", ⟨.func (.containH .aggAll true), some .paramsForContains⟩),
   ("assert_excludes_any", ⟨.func (.containH .aggAny false), some .paramsForContains⟩),
   ("assert_success", ⟨.func .assertSuccessH, some .yamlArgsString⟩),
   ("assert_failure", ⟨.func .assertFailureH, some .yamlArgsString⟩)]

/-- Builtins lookup (`directive in self.builtins` / `self.builtins[directive]`). -/
def builtinLookup (tbl : List (String × BuiltinEntry)) (name : String) :
    Option BuiltinEntry :=
  match tbl with
  | [] => none
  | (k, e) :: rest => if k == name then some e else builtinLookup rest name

/-- The symbol seeded for a builtins entry at construction: the entry value for
value entries, the bound method for function entries. -/
def builtinSymVal (name : String) : BuiltinVal → Value
  | .val v => v
  | .func _ => .builtin name

/-- One declarative stage entry: a YAML mapping from directive name to its
argument block.  A well-formed entry has exactly one key. -/
def Segment := List (String × Value)

/-- A parsed test case handed to the constructor: ordinal, label, and the three
stage specifications. -/
structure TC where
  idx : Int
  label : String
  setup : List Segment
  case : List Segment
  teardown : List Segment

/-- The state built by `TestCase.__init__`: empty records and transcript, the
symbol table seeded from the builtins, zero last exit code and empty last
output. -/
def initState (idx : Int) (label : String) : CaseState :=
  { failures := [], errors := [], output := "",
    local_symbols := (builtins idx label).map (fun p => (Value.str p.1, builtinSymVal p.1 p.2.value)),
    last_return_code := 0, last_call_output := "" }

/-- Result of an argument adapter: the flat `(args, kwargs)` to call with, or
the `(None, None)` signal that the handler is not to be called. -/
inductive AdapterOut where
  | call (args : List Value) (kwargs : List (String × Value))
  | skip

/-- Run the `yaml_prep` function of a dispatch entry.  `yaml_get_uuid` and
`yaml_get_env` do their work here (binding a symbol) and return the
do-not-call signal. -/
def runAdapter (w : World) (st : CaseState) (tag : AdapterTag) (segment : Value) :
    CaseState × Except PyErr AdapterOut :=
  match tag with
  | .paramsForCall =>
      (st, (fun p => AdapterOut.call p.1 p.2) <$> params_for_call w st segment)
  | .yamlArgsString =>
      (st, (fun p => AdapterOut.call p.1 p.2) <$> yaml_args_string st segment)
  | .yamlGetUuid =>
      if hashable segment then
        ({ st with local_symbols := symSet st.local_symbols segment (.str w.newUuid) },
         .ok .skip)
      else (st, .error (.typeError "unhashable type"))
  | .yamlGetEnv =>
      match params_for_set segment with
      | .error e => (st, .error e)
      | .ok (varName, envName) =>
          match envName with
          | .str en =>
              match w.envVar en with
              | some v =>
                  if hashable varName then
                    ({ st with local_symbols := symSet st.local_symbols varName (.str v) },
                     .ok .skip)
                  else (st, .error (.typeError "unhashable type"))
              | none => (st, .error (.keyError en))
          | _ => (st, .error (.typeError "str expected for environ key"))
  | .yamlExtractMatch =>
      (st, (fun args => AdapterOut.call args []) <$> yaml_extract_match segment)
  | .codeAdapter => (st, .ok (.call [segment] []))
  | .paramsForContains =>
      (st, (fun p => AdapterOut.call p.1 p.2) <$> params_for_contains st segment)

/-- Invoke a dispatch-table handler with the flat arguments produced by its
adapter, as `howto[0](*args, **kwargs)` does. -/
def callHandler (w : World) (st : CaseState) (h : Handler) (args : List Value)
    (kwargs : List (String × Value)) : CaseState × Option PyErr :=
  match h with
  | .callNoError =>
      match call_no_error w st args kwargs with
      | (st, .error e) => (st, some e)
      | (st, .ok _) => (st, none)
  | .callAllowError =>
      match call_allow_error w st args kwargs with
      | (st, .error e) => (st, some e)
      | (st, .ok _) => (st, none)
  | .shellH =>
      match shell w st args with
      | (st, .error e) => (st, some e)
      | (st, .ok _) => (st, none)
  | .getUuidH => (st, none)
  | .getEnvH =>
      match args with
      | .str en :: _ =>
          match w.envVar en with
          | some _ => (st, none)
          | none => (st, some (.keyError en))
      | _ :: _ => (st, some (.typeError "str expected for environ key"))
      | [] => (st, some (.typeError "get_env() missing 1 required positional argument"))
  | .printOutH =>
      match args with
      | msg :: rest => print_out w st msg rest
      | [] => (st, some (.typeError "print_out() missing 1 required positional argument"))
  | .extractMatchH =>
      match args with
      | p :: rest => extract_match w st p (rest.headD .vnone) ((rest.drop 1).headD .vnone)
      | [] => (st, some (.typeError "extract_match() missing 1 required positional argument"))
  | .codeH =>
      match args with
      | c :: _ => execute w st c
      | [] => (st, some (.typeError "execute() missing 1 required positional argument"))
  | .failH => failDirective w st
  | .expectH =>
      match args with
      | c :: m :: rest => expect w st (truthy c) m rest
      | _ => (st, some (.typeError "expect() missing required positional arguments"))
  | .abortH => abortDirective w st
  | .assertThatH =>
      match args with
      | c :: m :: rest => assert_that w st (truthy c) m rest
      | _ => (st, some (.typeError "assert_that() missing required positional arguments"))
  | .containH which contains => contain_checker_run w st .assertSev which contains args kwargs
  | .assertSuccessH => assert_success w st args
  | .assertFailureH => assert_failure w st args

/-- `run_segment(spec_segment)`: an entry with more than one directive key hits
`raise ConfigError` — but `ConfigError.__init__` requires a `msg` argument, so
instantiating the class without arguments actually raises `TypeError`.  A
single entry is dispatched: unknown names and adapter-less directives fail with
`ConfigError`; otherwise the adapter shapes the arguments (or signals
do-not-call) and the handler runs. -/
def run_segment (w : World) (tbl : List (String × BuiltinEntry)) (st : CaseState)
    (seg : Segment) : CaseState × Option PyErr :=
  if seg.length > 1 then
    (st, some (.typeError
      "ConfigError.__init__() missing 1 required positional argument: msg"))
  else
    match seg with
    | [] => (st, none)
    | (directive, segment) :: _ =>
        match builtinLookup tbl directive with
        | none => (st, some (.configError ("unknown YAML directive: " ++ directive)))
        | some entry =>
            match entry.prep with
            | none => (st, some (.configError
                ("directive only available inside a code directive: " ++ directive)))
            | some tag =>
                match runAdapter w st tag segment with
                | (st, .error e) => (st, some e)
                | (st, .ok .skip) => (st, none)
                | (st, .ok (.call args kwargs)) =>
                    match entry.value with
                    | .func h => callHandler w st h args kwargs
                    | .val _ => (st, some (.typeError "object is not callable"))

/-- `run_segments_of(stage_spec)`: run the entries in order, stopping at the
first exception. -/
def runSegments (w : World) (tbl : List (String × BuiltinEntry)) (st : CaseState) :
    List Segment → CaseState × Option PyErr
  | [] => (st, none)
  | seg :: rest =>
      match run_segment w tbl st seg with
      | (st, none) => runSegments w tbl st rest
      | (st, some e) => (st, some e)

/-- The `"\n### Test case <STAGE>"` banner printed before each stage. -/
def pushHeader (w : World) (st : CaseState) (name : String) : CaseState :=
  printOutStr w st ("\n### Test case " ++ name)

/-- Print a stage banner and run the stage entries. -/
def runStage (w : World) (tbl : List (String × BuiltinEntry)) (st : CaseState)
    (name : String) (segs : List Segment) : CaseState × Option PyErr :=
  runSegments w tbl (pushHeader w st name) segs

/-- The body of the first `try` of `run`: SETUP then TEST, stopping at the
first exception, which is tagged with the stage it arose in. -/
def setupTestRaw (w : World) (tbl : List (String × BuiltinEntry))
    (setup caseSegs : List Segment) (st0 : CaseState) :
    CaseState × Option (String × PyErr) :=
  match runStage w tbl st0 "SETUP" setup with
  | (st, some e) => (st, some ("SETUP", e))
  | (st, none) =>
      match runStage w tbl st "TEST" caseSegs with
      | (st, some e) => (st, some ("TEST", e))
      | (st, none) => (st, none)

/-- The `except` clauses of the first `try` of `run`: `TestFailure` is
swallowed; `CallError` is recorded and logged; `KeyboardInterrupt` is recorded,
logged and re-raised (the returned flag); anything else is recorded as an
unhandled exception (the traceback text is modelled as empty). -/
def handleMain (w : World) (st : CaseState) :
    Option (String × PyErr) → CaseState × Bool
  | none => (st, false)
  | some (_, .testFailure) => (st, false)
  | some (stg, .callError m) =>
      let status := "CALL ERROR in stage " ++ stg ++ " "
      let st := record_error st status (.str m) []
      (printOutStr w st (status ++ ": " ++ m), false)
  | some (stg, .keyboardInterrupt) =>
      let status := "KEYBOARD INTERRUPT in stage " ++ stg ++ " "
      let st := record_error st status (.str "keyboard interrupt detected") []
      (printOutStr w st status, true)
  | some (stg, e) =>
      let status := "UNHANDLED EXCEPTION in stage " ++ stg ++ " "
      let st := record_error st status (.str (reprPyErr e ++ "\n")) []
      (printOutStr w st ("# EXCEPTION!! " ++ reprPyErr e), false)

/-- The `finally` block of `run`: print the TEARDOWN banner and run the
teardown entries, with teardown-specific handling — a `TestFailure` here is
itself an error, a `KeyboardInterrupt` re-raises (setting the flag), and the
pending-interrupt flag from SETUP/TEST is preserved. -/
def teardownPhase (w : World) (tbl : List (String × BuiltinEntry))
    (teardown : List Segment) (st : CaseState) (pend : Bool) :
    CaseState × Bool :=
  let st := pushHeader w st "TEARDOWN"
  match runSegments w tbl st teardown with
  | (st, none) => (st, pend)
  | (st, some .testFailure) =>
      let status := "unexpected TEST FAILURE in stage TEARDOWN"
      let st := record_error st status (.str "test failure in stage TEARDOWN") []
      (printOutStr w st status, pend)
  | (st, some (.callError m)) =>
      let status := "CALL ERROR in stage TEARDOWN "
      let st := record_error st status (.str m) []
      (printOutStr w st (status ++ ": " ++ m), pend)
  | (st, some .keyboardInterrupt) =>
      let status := "KEYBOARD INTERRUPT in stage TEARDOWN"
      let st := record_error st status (.str "keyboard interrupt detected") []
      (printOutStr w st status, true)
  | (st, some e) =>
      let status := "UNHANDLED EXCEPTION in stage TEARDOWN"
      let st := record_error st status (.str (reprPyErr e ++ "\n")) []
      (printOutStr w st ("# EXCEPTION!! " ++ reprPyErr e), pend)

/-- The three summary outcomes of the final log line. -/
inductive Summary where
  | passed
  | failed
  | errored

/-- The summary-logging loop formats each record with
`format_string(message, *args)`; a formatting exception propagates out of
`run`.  A non-string message raises `TypeError` (from the regular-expression
substitution inside `format_string`). -/
def formatRecords (w : World) : List FRec → Except PyErr Unit
  | [] => .ok ()
  | r :: rest =>
      match r.message with
      | .str m =>
          match format_string w.getSymbol m r.args with
          | .error e => .error e
          | .ok _ => formatRecords w rest
      | _ => .error (.typeError "expected string or bytes-like object")

/-- The epilogue of `run`: `print_output` is initialized to `True` and every
branch either leaves it or reassigns `True`; the FAILED branch logs each
failure, the ERRORED branch each error, the PASSED branch only the summary
line; the transcript is logged whenever `print_output` holds.  Returns the
problem count, the summary, and the `print_output` value. -/
def summaryPhase (w : World) (st : CaseState) : Except PyErr (Nat × Summary × Bool) :=
  let print_output := true
  if st.failures.length > 0 then
    match formatRecords w st.failures with
    | .error e => .error e
    | .ok _ => .ok (st.failures.length + st.errors.length, .failed, print_output)
  else if st.errors.length > 0 then
    match formatRecords w st.errors with
    | .error e => .error e
    | .ok _ => .ok (st.failures.length + st.errors.length, .errored, print_output)
  else .ok (st.failures.length + st.errors.length, .passed, print_output)

/-- How `run()` terminates: a normal return with the problem count, the summary
outcome and the transcript-printed flag; propagation of a re-raised
`KeyboardInterrupt`; or propagation of a summary-formatting exception. -/
inductive RunResult where
  | returned (n : Nat) (s : Summary) (printedOutput : Bool)
  | interrupted
  | raised (e : PyErr)

/-- Final state and termination of one `run()`. -/
structure RunOut where
  state : CaseState
  result : RunResult

/-- `TestCase.run()`: run SETUP and TEST under the main handlers, always run
TEARDOWN in the `finally` block, then — unless an interrupt is pending, which
re-raises after the `finally` — log the summary and return
`len(failures) + len(errors)`. -/
def caseTbl (tc : TC) : List (String × BuiltinEntry) :=
  builtins tc.idx tc.label

/-- The `try`/`except`/`finally` part of `run`: SETUP and TEST under the main
handlers, then the unconditional TEARDOWN; the flag is the pending re-raised
interrupt. -/
def runPhases (w : World) (tc : TC) : CaseState × Bool :=
  let p1 := setupTestRaw w (caseTbl tc) tc.setup tc.case (initState tc.idx tc.label)
  let p2 := handleMain w p1.1 p1.2
  teardownPhase w (caseTbl tc) tc.teardown p2.1 p2.2

def run (w : World) (tc : TC) : RunOut :=
  let p3 := runPhases w tc
  if p3.2 then ⟨p3.1, .interrupted⟩
  else
    match summaryPhase w p3.1 with
    | .error e => ⟨p3.1, .raised e⟩
    | .ok (n, s, pr) => ⟨p3.1, .returned n s pr⟩

/-- `reindent(s, numSpaces, prompt)`: prefix every line with the indent and
prompt. -/
def reindent (s : String) (numSpaces : Nat) (prompt : String) : String :=
  String.intercalate "\n"
    ((s.splitOn "\n").map (fun line => strRepeat " " numSpaces ++ prompt ++ line))

/-- `get_output(indent, header)`: the reindented transcript. -/
def get_output (st : CaseState) (indent : Nat) (header : String) : String :=
  reindent st.output indent header

/-!  ### Helper lemmas: list decomposition and failure-count monotonicity

Every mutation of `self.failures` in the source is an append
(`record_failure`), so the failure count never decreases across any directive
or stage.  These lemmas carry that fact through every function of the model. -/

theorem runSegments_append (w : World) (tbl : List (String × BuiltinEntry))
    (l1 l2 : List Segment) (st : CaseState) :
    runSegments w tbl st (l1 ++ l2) =
      match runSegments w tbl st l1 with
      | (st1, none) => runSegments w tbl st1 l2
      | (st1, some e) => (st1, some e) := by
  induction l1 generalizing st with
  | nil => simp [runSegments]
  | cons seg rest ih =>
      simp only [List.cons_append, runSegments]
      rcases h : run_segment w tbl st seg with ⟨st1, oe⟩
      cases oe <;> simp [ih]

theorem failures_le_print_out (w : World) (st : CaseState) (m : Value) (a : List Value) :
    st.failures.length ≤ (print_out w st m a).1.failures.length := by
  unfold print_out
  split <;> simp

theorem failures_le_expect (w : World) (st : CaseState) (c : Bool) (m : Value)
    (a : List Value) :
    st.failures.length ≤ (expect w st c m a).1.failures.length := by
  unfold expect
  split
  · exact Nat.le_refl _
  · refine Nat.le_trans ?_
      (failures_le_print_out w (record_failure st "FAILED EXPECTATION" m a) _ _)
    simp [record_failure]

theorem failures_le_record_failure (st : CaseState) (s : String) (m : Value)
    (a : List Value) :
    st.failures.length ≤ (record_failure st s m a).failures.length := by
  simp [record_failure]

theorem failures_le_assert_that (w : World) (st : CaseState) (c : Bool) (m : Value)
    (a : List Value) :
    st.failures.length ≤ (assert_that w st c m a).1.failures.length := by
  unfold assert_that
  split
  · exact Nat.le_refl _
  · split
    · rename_i mm
      show st.failures.length ≤
        (match print_out w (record_failure st "FAILED ASSERTION" (Value.str mm) a)
            (Value.str ("# FAILED ASSERTION: " ++ mm)) a with
         | (st, none) => (st, some PyErr.testFailure)
         | (st, some e) => (st, some e)).1.failures.length
      have h := failures_le_print_out w (record_failure st "FAILED ASSERTION" (Value.str mm) a)
        (Value.str ("# FAILED ASSERTION: " ++ mm)) a
      rcases hp : print_out w (record_failure st "FAILED ASSERTION" (Value.str mm) a)
          (Value.str ("# FAILED ASSERTION: " ++ mm)) a with ⟨st2, oe⟩
      rw [hp] at h
      cases oe <;>
        exact Nat.le_trans (failures_le_record_failure st _ _ a) h
    · exact failures_le_record_failure st _ _ a

theorem failures_eq_call_external (w : World) (st : CaseState) (cmd : String)
    (chdir : Option String) :
    (call_external w st cmd chdir).1.failures = st.failures := by
  unfold call_external
  cases w.runCmd cmd chdir with
  | raised e => simp [printOutStr]
  | completed rc out =>
      simp only [printOutStr]
      split <;> rfl

theorem failures_eq_call_allow_error (w : World) (st : CaseState) (args : List Value)
    (kwargs : List (String × Value)) :
    (call_allow_error w st args kwargs).1.failures = st.failures := by
  unfold call_allow_error
  cases w.getCall args kwargs with
  | error e => rfl
  | ok p => exact failures_eq_call_external w st p.1 p.2

theorem failures_le_call_no_error (w : World) (st : CaseState) (args : List Value)
    (kwargs : List (String × Value)) :
    st.failures.length ≤ (call_no_error w st args kwargs).1.failures.length := by
  unfold call_no_error
  have h1 := failures_eq_call_allow_error w st args kwargs
  rcases hc : call_allow_error w st args kwargs with ⟨st1, r⟩
  rw [hc] at h1
  simp only at h1
  have h1l : st.failures.length = st1.failures.length := by rw [h1]
  cases r with
  | error e => exact Nat.le_of_eq h1l
  | ok p =>
      obtain ⟨rc, out⟩ := p
      show st.failures.length ≤
        (match assert_that w st1 (rc == 0) (Value.str "call failed: \"{}\"")
            [Value.list args] with
         | (st, none) => (st, Except.ok out)
         | (st, some e) => (st, Except.error e)).1.failures.length
      have h2 := failures_le_assert_that w st1 (rc == 0) (.str "call failed: \"{}\"")
        [.list args]
      rcases ha : assert_that w st1 (rc == 0) (.str "call failed: \"{}\"") [.list args]
        with ⟨st2, oe⟩
      rw [ha] at h2
      simp only at h2
      cases oe <;> simpa using Nat.le_trans (Nat.le_of_eq h1l) h2

theorem failures_eq_shell (w : World) (st : CaseState) (args : List Value) :
    (shell w st args).1.failures = st.failures := by
  cases args with
  | nil => rfl
  | cons cmd rest =>
      cases cmd <;> try rfl
      case str c =>
        show (match format_string w.getSymbol (c ++ strRepeat " {}" rest.length) rest with
              | .ok line => call_external w st line none
              | .error e => (st, Except.error e)).1.failures = st.failures
        rcases format_string w.getSymbol (c ++ strRepeat " {}" rest.length) rest with e | line
        · rfl
        · exact failures_eq_call_external w st line none

theorem failures_le_execute (w : World) (st : CaseState) (c : Value) :
    st.failures.length ≤ (execute w st c).1.failures.length := by
  unfold execute
  simp

theorem failures_eq_extract_match (w : World) (st : CaseState) (p v g : Value) :
    (extract_match w st p v g).1.failures = st.failures := by
  unfold extract_match
  dsimp only
  repeat' split
  all_goals rfl

theorem failures_le_applySeverity (w : World) (st : CaseState) (check : Severity)
    (c : Bool) (m : Value) (a : List Value) :
    st.failures.length ≤ (applySeverity w st check c m a).1.failures.length := by
  cases check with
  | assertSev => exact failures_le_assert_that w st c m a
  | expectSev => exact failures_le_expect w st c m a

theorem failures_le_check_several (w : World) (st : CaseState) (check : Severity)
    (which : Agg) (condition : Value → Except PyErr Bool) (m : Value)
    (values : List Value) :
    st.failures.length ≤ (check_several w st check which condition m values).1.failures.length := by
  unfold check_several
  cases pyLen m with
  | none => exact Nat.le_refl _
  | some n =>
      rcases evalConditions condition values with e | bs
      · exact Nat.le_refl _
      · exact failures_le_applySeverity w st check _ _ []

theorem failures_le_contain_checker_run (w : World) (st : CaseState) (check : Severity)
    (which : Agg) (contains : Bool) (values : List Value)
    (kwargs : List (String × Value)) :
    st.failures.length ≤
      (contain_checker_run w st check which contains values kwargs).1.failures.length := by
  unfold contain_checker_run
  exact failures_le_check_several w st check which _ _ values

theorem failures_le_assert_success (w : World) (st : CaseState) (args : List Value) :
    st.failures.length ≤ (assert_success w st args).1.failures.length := by
  unfold assert_success
  exact failures_le_assert_that w st _ _ _

theorem failures_le_assert_failure (w : World) (st : CaseState) (args : List Value) :
    st.failures.length ≤ (assert_failure w st args).1.failures.length := by
  unfold assert_failure
  exact failures_le_assert_that w st _ _ _

theorem failures_eq_runAdapter (w : World) (st : CaseState) (tag : AdapterTag)
    (segment : Value) :
    (runAdapter w st tag segment).1.failures = st.failures := by
  cases tag with
  | paramsForCall => rfl
  | yamlArgsString => rfl
  | yamlGetUuid =>
      simp only [runAdapter]
      split <;> rfl
  | yamlGetEnv =>
      simp only [runAdapter]
      rcases params_for_set segment with e | p
      · rfl
      · obtain ⟨varName, envName⟩ := p
        cases envName <;> try rfl
        case str en =>
          dsimp only
          split
          · split <;> rfl
          · rfl
  | yamlExtractMatch => rfl
  | codeAdapter => rfl
  | paramsForContains => rfl

theorem failures_le_callHandler (w : World) (st : CaseState) (h : Handler)
    (args : List Value) (kwargs : List (String × Value)) :
    st.failures.length ≤ (callHandler w st h args kwargs).1.failures.length := by
  cases h with
  | callNoError =>
      unfold callHandler
      have h1 := failures_le_call_no_error w st args kwargs
      revert h1
      rcases call_no_error w st args kwargs with ⟨st1, r⟩
      intro h1
      cases r <;> exact h1
  | callAllowError =>
      unfold callHandler
      have h1 := failures_eq_call_allow_error w st args kwargs
      revert h1
      rcases call_allow_error w st args kwargs with ⟨st1, r⟩
      intro h1
      simp only at h1
      cases r <;> exact Nat.le_of_eq (congrArg List.length h1.symm)
  | shellH =>
      unfold callHandler
      have h1 := failures_eq_shell w st args
      revert h1
      rcases shell w st args with ⟨st1, r⟩
      intro h1
      simp only at h1
      cases r <;> exact Nat.le_of_eq (congrArg List.length h1.symm)
  | getUuidH => exact Nat.le_refl _
  | getEnvH =>
      unfold callHandler
      cases args with
      | nil => exact Nat.le_refl _
      | cons a rest =>
          cases a <;> try exact Nat.le_refl _
          case str en =>
            dsimp only
            cases w.envVar en <;> exact Nat.le_refl _
  | printOutH =>
      unfold callHandler
      cases args with
      | nil => exact Nat.le_refl _
      | cons m rest => exact failures_le_print_out w st m rest
  | extractMatchH =>
      unfold callHandler
      cases args with
      | nil => exact Nat.le_refl _
      | cons p rest =>
          exact Nat.le_of_eq (congrArg List.length (failures_eq_extract_match w st p _ _).symm)
  | codeH =>
      unfold callHandler
      cases args with
      | nil => exact Nat.le_refl _
      | cons c rest => exact failures_le_execute w st c
  | failH =>
      unfold callHandler failDirective
      exact failures_le_expect w st false (.str "failure") []
  | expectH =>
      unfold callHandler
      cases args with
      | nil => exact Nat.le_refl _
      | cons c rest =>
          cases rest with
          | nil => exact Nat.le_refl _
          | cons m rest2 => exact failures_le_expect w st (truthy c) m rest2
  | abortH =>
      unfold callHandler abortDirective
      exact failures_le_assert_that w st false (.str "abort called") []
  | assertThatH =>
      unfold callHandler
      cases args with
      | nil => exact Nat.le_refl _
      | cons c rest =>
          cases rest with
          | nil => exact Nat.le_refl _
          | cons m rest2 => exact failures_le_assert_that w st (truthy c) m rest2
  | containH which contains => exact failures_le_contain_checker_run w st _ which contains args kwargs
  | assertSuccessH => exact failures_le_assert_success w st args
  | assertFailureH => exact failures_le_assert_failure w st args

theorem failures_le_run_segment (w : World) (tbl : List (String × BuiltinEntry))
    (st : CaseState) (seg : Segment) :
    st.failures.length ≤ (run_segment w tbl st seg).1.failures.length := by
  cases seg with
  | nil => exact Nat.le_refl _
  | cons hd tail =>
      obtain ⟨directive, segment⟩ := hd
      unfold run_segment
      split
      · exact Nat.le_refl _
      · dsimp only
        cases builtinLookup tbl directive with
        | none => exact Nat.le_refl _
        | some entry =>
            dsimp only
            cases entry.prep with
            | none => exact Nat.le_refl _
            | some tag =>
                dsimp only
                have ha := failures_eq_runAdapter w st tag segment
                rcases hA : runAdapter w st tag segment with ⟨st1, r⟩
                rw [hA] at ha
                simp only at ha
                have hal : st.failures.length = st1.failures.length := by rw [ha]
                cases r with
                | error e => exact Nat.le_of_eq hal
                | ok ao =>
                    cases ao with
                    | skip => exact Nat.le_of_eq hal
                    | call args kwargs =>
                        dsimp only
                        cases entry.value with
                        | func h =>
                            exact Nat.le_trans (Nat.le_of_eq hal)
                              (failures_le_callHandler w st1 h args kwargs)
                        | val v => exact Nat.le_of_eq hal

theorem failures_le_runSegments (w : World) (tbl : List (String × BuiltinEntry))
    (st : CaseState) (segs : List Segment) :
    st.failures.length ≤ (runSegments w tbl st segs).1.failures.length := by
  induction segs generalizing st with
  | nil => exact Nat.le_refl _
  | cons seg rest ih =>
      simp only [runSegments]
      have h1 := failures_le_run_segment w tbl st seg
      revert h1
      rcases run_segment w tbl st seg with ⟨st1, oe⟩
      intro h1
      cases oe with
      | none => exact Nat.le_trans h1 (ih st1)
      | some e => exact h1

theorem failures_le_teardownPhase (w : World) (tbl : List (String × BuiltinEntry))
    (teardown : List Segment) (st : CaseState) (pend : Bool) :
    st.failures.length ≤ (teardownPhase w tbl teardown st pend).1.failures.length := by
  unfold teardownPhase
  dsimp only
  have h1 := failures_le_runSegments w tbl (pushHeader w st "TEARDOWN") teardown
  have h0 : st.failures.length = (pushHeader w st "TEARDOWN").failures.length := by
    simp [pushHeader, printOutStr]
  rcases hR : runSegments w tbl (pushHeader w st "TEARDOWN") teardown with ⟨st1, oe⟩
  rw [hR] at h1
  simp only at h1
  have hle : st.failures.length ≤ st1.failures.length := h0 ▸ h1
  cases oe with
  | none => exact hle
  | some e => cases e <;> simp [record_error, printOutStr] <;> exact hle

/-- `teardownPhase` never clears a pending interrupt. -/
theorem teardownPhase_pend_true (w : World) (tbl : List (String × BuiltinEntry))
    (teardown : List Segment) (st : CaseState) :
    (teardownPhase w tbl teardown st true).2 = true := by
  unfold teardownPhase
  dsimp only
  rcases runSegments w tbl (pushHeader w st "TEARDOWN") teardown with ⟨st1, oe⟩
  cases oe with
  | none => rfl
  | some e => cases e <;> rfl

/-!  ### Concrete fixtures used by witnesses and counterexamples -/

set_option maxRecDepth 10000

/-- A baseline oracle world: call resolution always fails, commands exit 0 with
empty output, the environment is empty, interpolation resolves to the empty
string, regex search never matches, embedded code is a no-op. -/
def wBase : World :=
  { getCall := fun _ _ => .error "no such target",
    runCmd := fun _ _ => .completed 0 "",
    envVar := fun _ => none,
    newUuid := "fixed-uuid",
    getSymbol := fun _ => "",
    settings := [],
    reSearch := fun _ _ => none,
    execCode := fun _ t => ⟨t, [], [], "", none⟩ }

/-- A world whose single resolvable command is interrupted while running. -/
def wInterrupt : World :=
  { wBase with
    getCall := fun _ _ => .ok ("acmd", none),
    runCmd := fun _ _ => .raised .keyboardInterrupt }

/-- A world whose regex oracle behaves as Python `re.search` does on the
pattern `(\d+)` against the text `count: 42`. -/
def wRegex : World :=
  { wBase with
    reSearch := fun p s =>
      if p = "(\\d+)" && s = "count: 42" then some [some "42"] else none }

/-- A case with all three stages empty. -/
def tcEmpty : TC := ⟨1, "empty", [], [], []⟩

/-- A TEST-stage entry asserting containment of a value absent from the (empty)
last output: its `assert_that` fails and aborts the stage. -/
def segAssertC1 : Segment :=
  [("assert_contains_any", .list [Value.dict [("literal", Value.str "zzz")]])]

/-- The TEST-stage entry after the aborting assertion; it must never run. -/
def segSkippedC1 : Segment := [("log", .list [Value.str "SHOULD-NOT-RUN"])]

/-- A case whose TEST stage asserts containment of an absent value and then has
one more directive; the teardown logs a marker line. -/
def tcAssert : TC :=
  ⟨2, "abort", [], [segAssertC1, segSkippedC1], [[("log", .list [Value.str "TD-RAN"])]]⟩

/-- A case whose TEST stage makes a call that is interrupted; the teardown logs
a marker line. -/
def tcInterrupt : TC :=
  ⟨3, "intr",
   [],
   [[("call", .dict [("target", Value.str "t")])]],
   [[("log", .list [Value.str "TD-RAN"])]]⟩

/-- A case state carrying the captured output of a previous successful call. -/
def stPrev : CaseState :=
  { initState 0 "prev" with last_call_output := "PREV" }

/-- A stage entry with two directive keys. -/
def segTwoKeys : Segment :=
  [("log", .list [Value.str "a"]), ("uuid", Value.str "x")]

/-!  ### Claim theorems -/

/-- **C4** (corrected): the claim also asserts that a failed target resolution
leaves no stale last-call state, which is false — the reset happens inside
`_call_external`, but `environment.get_call` raises `CallError` before
`_call_external` is reached.  At the concrete input: a state holding the
output `"PREV"` and exit code 0 of a previous successful call, and a world
whose resolution fails, `call_allow_error` raises `CallError` and leaves the
state — including the stale success state — exactly unchanged. -/
theorem caserunner_C4_counterexample :
    call_allow_error wBase stPrev [] [] =
      (stPrev, .error (.callError "could not resolve call: no such target")) ∧
    stPrev.last_call_output = "PREV" ∧ stPrev.last_return_code = 0 := by
  exact ⟨rfl, rfl, rfl⟩

/-- **C4** (amended): `_call_external` resets the last-call state (exit code
to 0, captured output to the empty string) before launching the command — so a
launch that raises leaves the reset values in place — but a call whose target
resolution fails raises `CallError` *before* `_call_external` runs and leaves
the whole state, including any previous last-call state, unchanged. -/
theorem caserunner_C4 :
    (∀ (w : World) (st : CaseState) (cmd : String) (chdir : Option String) (e : PyErr),
       w.runCmd cmd chdir = .raised e →
       (call_external w st cmd chdir).1.last_return_code = 0 ∧
       (call_external w st cmd chdir).1.last_call_output = "" ∧
       (call_external w st cmd chdir).2 = .error e) ∧
    (∀ (w : World) (st : CaseState) (args : List Value) (kwargs : List (String × Value))
       (m : String),
       w.getCall args kwargs = .error m →
       call_allow_error w st args kwargs =
         (st, .error (.callError ("could not resolve call: " ++ m)))) := by
  constructor
  · intro w st cmd chdir e h
    unfold call_external
    dsimp only
    rw [h]
    exact ⟨rfl, rfl, rfl⟩
  · intro w st args kwargs m h
    unfold call_allow_error
    rw [h]

/-- Witness for C4 at concrete inputs. -/
theorem caserunner_C4_witness :
    (call_external wInterrupt stPrev "acmd" none).1.last_return_code = 0 ∧
    (call_external wInterrupt stPrev "acmd" none).1.last_call_output = "" ∧
    (call_external wInterrupt stPrev "acmd" none).2 = .error .keyboardInterrupt := by
  exact caserunner_C4.1 wInterrupt stPrev "acmd" none .keyboardInterrupt rfl

/-- **C5** (code_bug): a declarative stage entry with more than one directive
key does fail before any handler is called (the state is returned unchanged),
but not with `ConfigError`: the statement `raise ConfigError` raises the bare
class, instantiating `ConfigError` without its required `msg` argument, which
raises `TypeError` instead. -/
theorem caserunner_C5 (w : World) (tbl : List (String × BuiltinEntry))
    (st : CaseState) (seg : Segment) (h : seg.length > 1) :
    run_segment w tbl st seg =
      (st, some (.typeError
        "ConfigError.__init__() missing 1 required positional argument: msg")) := by
  unfold run_segment
  rw [if_pos h]

/-- Witness for C5: the two-key entry `\x7blog: [a], uuid: x\x7d` evaluated in
the TEST stage of a fresh case. -/
theorem caserunner_C5_witness :
    run_segment wBase (caseTbl tcEmpty) (initState 1 "empty") segTwoKeys =
      ((initState 1 "empty"), some (.typeError
        "ConfigError.__init__() missing 1 required positional argument: msg")) := by
  exact caserunner_C5 wBase (caseTbl tcEmpty) (initState 1 "empty") segTwoKeys (by decide)

/-- The epilogue of `run` always reports the transcript-printed flag as true. -/
theorem summaryPhase_printed (w : World) (st : CaseState) (x : Nat × Summary × Bool)
    (h : summaryPhase w st = .ok x) : x.2.2 = true := by
  unfold summaryPhase at h
  split at h
  · split at h
    · exact absurd h (by simp)
    · cases h
      rfl
  · split at h
    · split at h
      · exact absurd h (by simp)
      · cases h
        rfl
    · cases h
      rfl

/-- **C9**: whenever `run()` returns normally, the transcript is logged —
`print_output` is initialized to `True` and never set to `False`, so the
full indented transcript is emitted even for a passing case. -/
theorem caserunner_C9 (w : World) (tc : TC) (n : Nat) (s : Summary) (pr : Bool)
    (h : (run w tc).result = .returned n s pr) : pr = true := by
  unfold run at h
  dsimp only at h
  split at h
  · exact absurd h (by simp)
  · rename_i hpend
    rcases hs : summaryPhase w (runPhases w tc).1 with e | x
    · rw [hs] at h
      exact absurd h (by simp)
    · rw [hs] at h
      simp only at h
      cases h
      exact summaryPhase_printed w (runPhases w tc).1 x hs

/-- Witness for C9: the empty case passes and prints its transcript. -/
theorem caserunner_C9_witness : (true : Bool) = true := by
  exact caserunner_C9 wBase tcEmpty 0 .passed true rfl

/-- **C10**: a single-key `\x7bvariable: name\x7d` argument entry with `name`
unbound in the symbol table raises `KeyError` (not `ConfigError`) from
`get_variable_or_literal`, and the stage driver's catch-all records such an
exception as an `UNHANDLED EXCEPTION` stage Error without re-raising. -/
theorem caserunner_C10 :
    (∀ (st : CaseState) (name : String),
       symGet st.local_symbols (.str name) = none →
       get_variable_or_literal st (.dict [("variable", .str name)]) =
         .error (.keyError name)) ∧
    (∀ (w : World) (st : CaseState) (stg : String) (k : String),
       (handleMain w st (some (stg, .keyError k))).2 = false ∧
       (handleMain w st (some (stg, .keyError k))).1.errors =
         st.errors ++ [⟨"UNHANDLED EXCEPTION in stage " ++ stg ++ " ",
                        .str (reprPyErr (.keyError k) ++ "\n"), []⟩]) := by
  constructor
  · intro st name h
    unfold get_variable_or_literal
    simp [h, pyStr]
  · intro w st stg k
    constructor
    · rfl
    · simp [handleMain, record_error, printOutStr]

/-- Witness for C10: looking up the unbound name `nope` in a fresh case. -/
theorem caserunner_C10_witness :
    get_variable_or_literal (initState 0 "c") (.dict [("variable", .str "nope")]) =
      .error (.keyError "nope") ∧
    (handleMain wBase (initState 0 "c") (some ("TEST", .keyError "nope"))).2 = false := by
  exact ⟨caserunner_C10.1 (initState 0 "c") "nope" rfl,
         (caserunner_C10.2 wBase (initState 0 "c") "TEST" "nope").1⟩

/-!  ### C6: message-formatting padding -/

/-- A template made of non-brace characters only. -/
def braceFreeStr (s : String) : Bool := s.data.all (fun c => (c != '{') && (c != '}'))

/-- The text the padding placeholders produce: each argument's `str` followed
by one space. -/
def fillArgs : List Value → String
  | [] => ""
  | a :: rest => pyStr a ++ " " ++ fillArgs rest

theorem strData_append (a b : String) : (a ++ b).data = a.data ++ b.data := rfl

theorem interpAux_no_brace (r : String → String) (l : List Char)
    (h : ∀ c ∈ l, ¬c = '{') : interpAux r l none = l := by
  induction l with
  | nil => rfl
  | cons c rest ih =>
      have hc := h c (List.mem_cons_self c rest)
      show (if c = '{' then interpAux r rest (some []) else c :: interpAux r rest none) =
        c :: rest
      rw [if_neg hc, ih (fun c2 hc2 => h c2 (List.mem_cons_of_mem c hc2))]

theorem countBracePairs_no_brace (l : List Char) (h : ∀ c ∈ l, ¬c = '{') :
    countBracePairs l = 0 := by
  induction l with
  | nil => rfl
  | cons c rest ih =>
      have hc := h c (List.mem_cons_self c rest)
      show (if c = '{' then countBracePairsAux rest true else countBracePairsAux rest false) = 0
      rw [if_neg hc]
      exact ih (fun c2 hc2 => h c2 (List.mem_cons_of_mem c hc2))

theorem pyFormatAux_append_no_brace (l1 l2 : List Char) (args : List Value)
    (h : ∀ c ∈ l1, ¬c = '{' ∧ ¬c = '}') :
    pyFormatAux (l1 ++ l2) none args = (fun l => l1 ++ l) <$> pyFormatAux l2 none args := by
  induction l1 with
  | nil =>
      simp only [List.nil_append]
      cases pyFormatAux l2 none args <;> simp
  | cons c rest ih =>
      obtain ⟨h1, h2⟩ := h c (List.mem_cons_self c rest)
      show (if c = '{' then pyFormatAux (rest ++ l2) (some '{') args
            else if c = '}' then pyFormatAux (rest ++ l2) (some '}') args
            else (fun x => c :: x) <$> pyFormatAux (rest ++ l2) none args) =
        (fun l => c :: rest ++ l) <$> pyFormatAux l2 none args
      rw [if_neg h1, if_neg h2, ih (fun c2 hc => h c2 (List.mem_cons_of_mem c hc))]
      cases pyFormatAux l2 none args <;> simp

theorem pyFormatAux_pad (args : List Value) :
    pyFormatAux (strRepeat "{} " args.length).data none args = .ok (fillArgs args).data := by
  induction args with
  | nil => rfl
  | cons a rest ih =>
      show pyFormatAux ('{' :: '}' :: ' ' :: (strRepeat "{} " rest.length).data) none
        (a :: rest) = .ok (fillArgs (a :: rest)).data
      have h2 : pyFormatAux ('{' :: '}' :: ' ' :: (strRepeat "{} " rest.length).data) none
            (a :: rest) =
          (fun l => (pyStr a).data ++ l) <$>
            pyFormatAux (' ' :: (strRepeat "{} " rest.length).data) none rest := rfl
      have h1 : pyFormatAux (' ' :: (strRepeat "{} " rest.length).data) none rest =
          (fun l => ' ' :: l) <$> pyFormatAux (strRepeat "{} " rest.length).data none rest := rfl
      rw [h2, h1, ih]
      show Except.ok ((pyStr a).data ++ ' ' :: (fillArgs rest).data) =
        .ok (fillArgs (a :: rest)).data
      have hd : (fillArgs (a :: rest)).data =
          (pyStr a).data ++ ' ' :: (fillArgs rest).data := by
        show ((pyStr a ++ " ") ++ fillArgs rest).data = _
        rw [strData_append, strData_append]
        simp
      rw [hd]

/-- **C6** (amended): positional formatting pads the template with additional
`\x7b\x7d ` placeholders only when the template has *fewer* placeholders than
arguments — for a brace-free template this yields the template, `": "`, and
each argument followed by a space, without raising.  The template `"\x7b\x7d-\x7b\x7d"`
with one argument has *more* placeholders than arguments: it is not padded, and
standard formatting raises `IndexError`, contrary to the claim's example. -/
theorem caserunner_C6 :
    (∀ (resolver : String → String) (msg : String) (args : List Value),
       braceFreeStr msg = true → args ≠ [] →
       format_string resolver msg args = .ok (msg ++ ": " ++ fillArgs args)) ∧
    (∀ resolver : String → String,
       format_string resolver "{}-{}" [.str "a"] =
         .error (.indexError "Replacement index out of range")) := by
  constructor
  · intro r msg args hbf hne
    have hfree : ∀ c ∈ msg.data, ¬c = '{' ∧ ¬c = '}' := by
      intro c hc
      have hb := List.all_eq_true.mp hbf c hc
      simp only [Bool.and_eq_true] at hb
      rcases hb with ⟨hb1, hb2⟩
      exact ⟨bne_iff_ne.mp hb1, bne_iff_ne.mp hb2⟩
    have hinterp : interpolate_symbols msg r = msg := by
      unfold interpolate_symbols
      rw [interpAux_no_brace r msg.data (fun c hc => (hfree c hc).1)]
    unfold format_string
    dsimp only
    rw [hinterp]
    rw [if_neg (by simpa using hne)]
    rw [countBracePairs_no_brace msg.data (fun c hc => (hfree c hc).1)]
    rw [if_pos (List.length_pos.mpr hne)]
    rw [Nat.sub_zero]
    unfold pyFormat
    have hl1 : ∀ c ∈ msg.data ++ [':', ' '], ¬c = '{' ∧ ¬c = '}' := by
      intro c hc
      rcases List.mem_append.mp hc with hc1 | hc2
      · exact hfree c hc1
      · simp only [List.mem_cons, List.mem_singleton] at hc2
        rcases hc2 with rfl | rfl | h
        · exact ⟨by decide, by decide⟩
        · exact ⟨by decide, by decide⟩
        · exact absurd h (List.not_mem_nil c)
    have hdata : (msg ++ ": " ++ strRepeat "{} " args.length).data =
        (msg.data ++ [':', ' ']) ++ (strRepeat "{} " args.length).data := by
      rw [strData_append, strData_append]
    rw [hdata]
    rw [pyFormatAux_append_no_brace _ _ _ hl1]
    rw [pyFormatAux_pad]
    rfl
  · intro r
    rfl

/-- **C6** (counterexample to the claim as stated): formatting `"\x7b\x7d-\x7b\x7d"`
with exactly one positional argument does raise — the padding rule does not
apply because the template has more placeholders than arguments. -/
theorem caserunner_C6_counterexample :
    format_string (fun _ => "") "{}-{}" [.str "a"] =
      .error (.indexError "Replacement index out of range") := rfl

/-- Witness for C6 at concrete inputs. -/
theorem caserunner_C6_witness :
    format_string (fun _ => "") "no placeholders" [.str "a", .str "b"] =
      .ok "no placeholders: a b " ∧
    format_string (fun _ => "") "{}-{}" [.str "a"] =
      .error (.indexError "Replacement index out of range") := by
  exact ⟨caserunner_C6.1 (fun _ => "") "no placeholders" [.str "a", .str "b"]
           (by decide) (by simp),
         caserunner_C6.2 (fun _ => "")⟩

/-!  ### C7: containment checkers -/

theorem assert_that_true (w : World) (st : CaseState) (m : Value) (a : List Value) :
    assert_that w st true m a = (st, none) := rfl

theorem assert_that_false_str (w : World) (st : CaseState) (m : String) :
    assert_that w st false (.str m) [] =
      (printOutStr w (record_failure st "FAILED ASSERTION" (.str m) [])
        ("# FAILED ASSERTION: " ++ m), some .testFailure) := rfl

theorem evalConditions_strs (f : String → Bool) (g : Value → Except PyErr Bool)
    (hg : ∀ s, g (.str s) = .ok (f s)) (vs : List String) :
    evalConditions g (vs.map .str) = .ok (vs.map f) := by
  induction vs with
  | nil => rfl
  | cons v rest ih =>
      simp only [List.map_cons, evalConditions, hg v, ih]
      rfl

theorem assert_that_false_parts (w : World) (st : CaseState) (s : String) :
    (assert_that w st false (.str s) []).2 = some .testFailure ∧
    (assert_that w st false (.str s) []).1.failures.length = st.failures.length + 1 := by
  rw [assert_that_false_str]
  exact ⟨rfl, by simp [printOutStr, record_failure]⟩

theorem assert_that_false_ifStr (w : World) (st : CaseState) (p : Prop) [Decidable p]
    (s1 s2 : String) :
    (assert_that w st false (if p then Value.str s1 else Value.str s2) []).2 =
      some .testFailure ∧
    (assert_that w st false (if p then Value.str s1 else Value.str s2) []).1.failures.length =
      st.failures.length + 1 := by
  split
  · exact assert_that_false_parts w st s1
  · exact assert_that_false_parts w st s2

theorem check_several_assert_pass (w : World) (st : CaseState) (which : Agg)
    (condF : Value → Except PyErr Bool) (m : String) (values : List Value)
    (bs : List Bool) (hev : evalConditions condF values = .ok bs)
    (hagg : (match which with | Agg.aggAll => bs.all id | Agg.aggAny => bs.any id) = true) :
    check_several w st .assertSev which condF (.str m) values = (st, none) := by
  cases which with
  | aggAll =>
      dsimp only at hagg
      unfold check_several
      dsimp only
      rw [hev]
      dsimp only
      rw [hagg, show pyLen (Value.str m) = some m.length from rfl]
      dsimp only
      exact assert_that_true w st
        (if (m.length == 0) = true then
          Value.str ("required" ++ ", but did not find, " ++ "all of" ++
            " the following values in the preceding output: " ++ pyStr (Value.list values))
        else Value.str m) []
  | aggAny =>
      dsimp only at hagg
      unfold check_several
      dsimp only
      rw [hev]
      dsimp only
      rw [hagg, show pyLen (Value.str m) = some m.length from rfl]
      dsimp only
      exact assert_that_true w st
        (if (m.length == 0) = true then
          Value.str ("required" ++ ", but did not find, " ++ "any of" ++
            " the following values in the preceding output: " ++ pyStr (Value.list values))
        else Value.str m) []

theorem check_several_assert_fail (w : World) (st : CaseState) (which : Agg)
    (condF : Value → Except PyErr Bool) (m : String) (values : List Value)
    (bs : List Bool) (hev : evalConditions condF values = .ok bs)
    (hagg : (match which with | Agg.aggAll => bs.all id | Agg.aggAny => bs.any id) = false) :
    (check_several w st .assertSev which condF (.str m) values).2 = some .testFailure ∧
    (check_several w st .assertSev which condF (.str m) values).1.failures.length =
      st.failures.length + 1 := by
  cases which with
  | aggAll =>
      dsimp only at hagg
      unfold check_several
      dsimp only
      rw [hev]
      dsimp only
      rw [hagg, show pyLen (Value.str m) = some m.length from rfl]
      dsimp only
      exact assert_that_false_ifStr w st ((m.length == 0) = true)
        ("required" ++ ", but did not find, " ++ "all of" ++
          " the following values in the preceding output: " ++ pyStr (Value.list values)) m
  | aggAny =>
      dsimp only at hagg
      unfold check_several
      dsimp only
      rw [hev]
      dsimp only
      rw [hagg, show pyLen (Value.str m) = some m.length from rfl]
      dsimp only
      exact assert_that_false_ifStr w st ((m.length == 0) = true)
        ("required" ++ ", but did not find, " ++ "any of" ++
          " the following values in the preceding output: " ++ pyStr (Value.list values)) m

/-- **C7**: `assert_contains_any` (checker built from `assert_that`, `any`,
inclusion) applied through the declarative keyword block
(`case_sensitive=False`, message) passes — returns the state unchanged with no
exception — exactly when the last output contains at least one of the values
under the case-folded comparison; and `assert_excludes` (`assert_that`, `all`,
exclusion) records a new failure and raises the stage-abort signal whenever
any of its values occurs case-insensitively in the last output. -/
theorem caserunner_C7 (w : World) (st : CaseState) (vs : List String) (m : String) :
    (contain_checker_run w st .assertSev .aggAny true (vs.map .str)
        [("case_sensitive", .bool false), ("message", .str m)] = (st, none) ↔
      vs.any (fun v => strContainsSub (lowerStr st.last_call_output) (lowerStr v)) = true) ∧
    (∀ v ∈ vs, strContainsSub (lowerStr st.last_call_output) (lowerStr v) = true →
      (contain_checker_run w st .assertSev .aggAll false (vs.map .str)
          [("case_sensitive", .bool false), ("message", .str m)]).2 = some .testFailure ∧
      (contain_checker_run w st .assertSev .aggAll false (vs.map .str)
          [("case_sensitive", .bool false), ("message", .str m)]).1.failures.length =
        st.failures.length + 1) := by
  constructor
  · constructor
    · intro hrun
      by_contra hany
      have hany2 : vs.any
          (fun v => strContainsSub (lowerStr st.last_call_output) (lowerStr v)) = false := by
        cases h : vs.any (fun v => strContainsSub (lowerStr st.last_call_output) (lowerStr v))
        · rfl
        · exact absurd h hany
      have hfail := check_several_assert_fail w st .aggAny
        (fun substr =>
          match last_output_contains st substr false with
          | Except.ok b => Except.ok (if true then b else !b)
          | Except.error e => Except.error e) m (vs.map Value.str)
        (vs.map (fun v => strContainsSub (lowerStr st.last_call_output) (lowerStr v)))
        (evalConditions_strs
          (fun v => strContainsSub (lowerStr st.last_call_output) (lowerStr v)) _
          (fun s => rfl) vs)
        (by simpa [List.any_map, Function.comp] using hany2)
      have h2 : (contain_checker_run w st .assertSev .aggAny true (vs.map .str)
          [("case_sensitive", .bool false), ("message", .str m)]).2 = some .testFailure :=
        hfail.1
      rw [hrun] at h2
      exact absurd h2 (by simp)
    · intro hany
      have hpass := check_several_assert_pass w st .aggAny
        (fun substr =>
          match last_output_contains st substr false with
          | Except.ok b => Except.ok (if true then b else !b)
          | Except.error e => Except.error e) m (vs.map Value.str)
        (vs.map (fun v => strContainsSub (lowerStr st.last_call_output) (lowerStr v)))
        (evalConditions_strs
          (fun v => strContainsSub (lowerStr st.last_call_output) (lowerStr v)) _
          (fun s => rfl) vs)
        (by simpa [List.any_map, Function.comp] using hany)
      exact hpass
  · intro v hv hocc
    have hall : vs.all
        (fun v => !(strContainsSub (lowerStr st.last_call_output) (lowerStr v))) = false := by
      cases h : vs.all (fun v => !(strContainsSub (lowerStr st.last_call_output) (lowerStr v)))
      · rfl
      · have h3 := List.all_eq_true.mp h v hv
        simp [hocc] at h3
    have hfail := check_several_assert_fail w st .aggAll
      (fun substr =>
        match last_output_contains st substr false with
        | Except.ok b => Except.ok (if false then b else !b)
        | Except.error e => Except.error e) m (vs.map Value.str)
      (vs.map (fun v => !(strContainsSub (lowerStr st.last_call_output) (lowerStr v))))
      (evalConditions_strs
        (fun v => !(strContainsSub (lowerStr st.last_call_output) (lowerStr v))) _
        (fun s => rfl) vs)
      (by simpa [List.all_map, Function.comp] using hall)
    exact ⟨hfail.1, hfail.2⟩

/-- Witness for C7: the output `"See X here"` contains `"b"` of
`["a","b"]` case-insensitively, and `assert_excludes(["x"])` fails on it
because `"X"` appears under the case-folded comparison. -/
theorem caserunner_C7_witness :
    (contain_checker_run wBase
        { initState 0 "w" with last_call_output := "See X here" }
        .assertSev .aggAll false ([ "x" ].map .str)
        [("case_sensitive", .bool false), ("message", .str "")]).2 =
      some .testFailure := by
  exact ((caserunner_C7 wBase
    { initState 0 "w" with last_call_output := "See X here" } ["x"] "").2
    "x" (by simp) (by decide)).1

/-!  ### C8: extract_match -/

theorem vbeq_str_self (a : String) : vbeq (.str a) (.str a) = true := by
  simp [vbeq]

theorem symGet_symSet_self (t : SymTable) (k v : Value) (hk : vbeq k k = true) :
    symGet (symSet t k v) k = some v := by
  induction t with
  | nil => simp [symSet, symGet, hk]
  | cons p rest ih =>
      obtain ⟨k0, v0⟩ := p
      by_cases h0 : vbeq k0 k = true
      · simp [symSet, h0, symGet]
      · simp [symSet, h0, symGet, ih]

/-- **C8**: `extract_match` with a non-empty pattern and a variable name binds
the variable to the first captured group of the oracle match, or to `None`
when there is no match, raising nothing; and the argument-shape validation
fails with `ConfigError` when both or neither of `variable`/`groups` are
given alongside a pattern. -/
theorem caserunner_C8 :
    (∀ (w : World) (st : CaseState) (p v g : String) (caps : List (Option String)),
       p ≠ "" → v ≠ "" →
       w.reSearch p st.last_call_output = some (some g :: caps) →
       (extract_match w st (.str p) (.str v) .vnone).2 = none ∧
       symGet (extract_match w st (.str p) (.str v) .vnone).1.local_symbols (.str v) =
         some (.str g)) ∧
    (∀ (w : World) (st : CaseState) (p v : String),
       p ≠ "" → v ≠ "" →
       w.reSearch p st.last_call_output = none →
       (extract_match w st (.str p) (.str v) .vnone).2 = none ∧
       symGet (extract_match w st (.str p) (.str v) .vnone).1.local_symbols (.str v) =
         some .vnone) ∧
    (∀ (w : World) (st : CaseState) (pat var grp : Value),
       truthy pat = true → truthy var = true → truthy grp = true →
       extract_match w st pat var grp =
         (st, some (.configError "extract_match cannot accept both variables and groups"))) ∧
    (∀ (w : World) (st : CaseState) (pat var grp : Value),
       truthy pat = true → truthy var = false → truthy grp = false →
       extract_match w st pat var grp =
         (st, some (.configError "extract_match requires variable or groups"))) := by
  refine ⟨?_, ?_, ?_, ?_⟩
  · intro w st p v g caps hp hv hre
    have hp2 : truthy (Value.str p) = true := by simp [truthy, hp]
    have hv2 : truthy (Value.str v) = true := by simp [truthy, hv]
    unfold extract_match
    rw [hp2, hv2]
    simp only [truthy, Bool.not_true, Bool.not_false, Bool.false_and, Bool.and_false,
      Bool.true_and, Bool.and_true, if_false, if_true]
    rw [hre]
    simp [capValue, symGet_symSet_self _ _ _ (vbeq_str_self v)]
  · intro w st p v hp hv hre
    have hp2 : truthy (Value.str p) = true := by simp [truthy, hp]
    have hv2 : truthy (Value.str v) = true := by simp [truthy, hv]
    unfold extract_match
    rw [hp2, hv2]
    simp only [truthy, Bool.not_true, Bool.not_false, Bool.false_and, Bool.and_false,
      Bool.true_and, Bool.and_true, if_false, if_true]
    rw [hre]
    simp [capValue, symGet_symSet_self _ _ _ (vbeq_str_self v)]
  · intro w st pat var grp hp hv hg
    unfold extract_match
    rw [hp, hv, hg]
    simp
  · intro w st pat var grp hp hv hg
    unfold extract_match
    rw [hp, hv, hg]
    simp

/-- Witness for C8: the pattern `(\d+)` against the prior output
`"count: 42"` binds `n` to `"42"`; with no match `n` is bound to `None`;
both/neither argument shapes raise `ConfigError`. -/
theorem caserunner_C8_witness :
    symGet (extract_match wRegex { initState 0 "x" with last_call_output := "count: 42" }
        (.str "(\\d+)") (.str "n") .vnone).1.local_symbols (.str "n") =
      some (.str "42") ∧
    symGet (extract_match wRegex { initState 0 "x" with last_call_output := "no digits" }
        (.str "(\\d+)") (.str "n") .vnone).1.local_symbols (.str "n") =
      some .vnone ∧
    extract_match wRegex (initState 0 "x") (.str "(\\d+)") (.str "n") (.list [.str "a"]) =
      (initState 0 "x",
       some (.configError "extract_match cannot accept both variables and groups")) ∧
    extract_match wRegex (initState 0 "x") (.str "(\\d+)") .vnone .vnone =
      (initState 0 "x", some (.configError "extract_match requires variable or groups")) := by
  refine ⟨?_, ?_, ?_, ?_⟩
  · exact (caserunner_C8.1 wRegex
      { initState 0 "x" with last_call_output := "count: 42" }
      "(\\d+)" "n" "42" [] (by decide) (by decide) rfl).2
  · exact (caserunner_C8.2.1 wRegex
      { initState 0 "x" with last_call_output := "no digits" }
      "(\\d+)" "n" (by decide) (by decide) rfl).2
  · exact caserunner_C8.2.2.1 wRegex (initState 0 "x")
      (.str "(\\d+)") (.str "n") (.list [.str "a"]) rfl rfl rfl
  · exact caserunner_C8.2.2.2 wRegex (initState 0 "x")
      (.str "(\\d+)") .vnone .vnone rfl rfl rfl

/-!  ### C2: the problem count and the summary rule -/

/-- The PASSED/FAILED/ERRORED selection rule, as the spec states it. -/
def summaryOf (st : CaseState) : Summary :=
  if st.failures.length > 0 then .failed
  else if st.errors.length > 0 then .errored
  else .passed

/-- **C2**: when the three phases complete with no pending interrupt and the
summary formatting succeeds, `run()` returns exactly
`len(failures) + len(errors)` of the final state, the summary line is FAILED
when the failure list is non-empty, else ERRORED when the error list is
non-empty, else PASSED, and the transcript is printed.  In particular a case
with empty setup, test and teardown stages returns 0 and logs PASSED (see the
witness). -/
theorem caserunner_C2 (w : World) (tc : TC) (stT : CaseState)
    (hph : runPhases w tc = (stT, false))
    (hf : formatRecords w stT.failures = .ok ())
    (he : formatRecords w stT.errors = .ok ()) :
    run w tc =
      ⟨stT, .returned (stT.failures.length + stT.errors.length) (summaryOf stT) true⟩ := by
  unfold run
  dsimp only
  rw [hph]
  dsimp only
  unfold summaryPhase summaryOf
  dsimp only
  by_cases h1 : stT.failures.length > 0
  · rw [if_pos h1, if_pos h1, hf]
    rfl
  · rw [if_neg h1, if_neg h1]
    by_cases h2 : stT.errors.length > 0
    · rw [if_pos h2, if_pos h2, he]
      rfl
    · rw [if_neg h2, if_neg h2]
      rfl

/-- Witness for C2: the empty case returns 0 and is summarized PASSED. -/
theorem caserunner_C2_witness :
    (run wBase tcEmpty).result = .returned 0 .passed true := by
  have h := caserunner_C2 wBase tcEmpty (runPhases wBase tcEmpty).1 rfl rfl rfl
  rw [h]
  rfl

/-!  ### C1: stage-abort on a failed assertion -/

theorem runSegments_abort (w : World) (tbl : List (String × BuiltinEntry))
    (stPre stA : CaseState) (seg : Segment) (rest : List Segment) (e : PyErr)
    (hseg : run_segment w tbl stPre seg = (stA, some e)) :
    runSegments w tbl stPre (seg :: rest) = (stA, some e) := by
  simp only [runSegments]
  rw [hseg]

theorem setupTestRaw_test_abort (w : World) (tbl : List (String × BuiltinEntry))
    (setup caseSegs : List Segment) (st0 stS stPre stA : CaseState)
    (pre : List Segment) (seg : Segment) (post : List Segment) (e : PyErr)
    (hS : runStage w tbl st0 "SETUP" setup = (stS, none))
    (hcase : caseSegs = pre ++ seg :: post)
    (hP : runSegments w tbl (pushHeader w stS "TEST") pre = (stPre, none))
    (hseg : run_segment w tbl stPre seg = (stA, some e)) :
    setupTestRaw w tbl setup caseSegs st0 = (stA, some ("TEST", e)) := by
  unfold setupTestRaw
  rw [hS]
  dsimp only
  unfold runStage
  rw [hcase, runSegments_append, hP]
  dsimp only
  rw [runSegments_abort w tbl stPre stA seg post e hseg]

theorem setupTestRaw_setup_abort (w : World) (tbl : List (String × BuiltinEntry))
    (setup caseSegs : List Segment) (st0 stPre stA : CaseState)
    (pre : List Segment) (seg : Segment) (post : List Segment) (e : PyErr)
    (hsetup : setup = pre ++ seg :: post)
    (hP : runSegments w tbl (pushHeader w st0 "SETUP") pre = (stPre, none))
    (hseg : run_segment w tbl stPre seg = (stA, some e)) :
    setupTestRaw w tbl setup caseSegs st0 = (stA, some ("SETUP", e)) := by
  unfold setupTestRaw
  unfold runStage
  rw [hsetup, runSegments_append, hP]
  dsimp only
  rw [runSegments_abort w tbl stPre stA seg post e hseg]

/-- A run whose SETUP/TEST phase ends in the stage-abort signal: the abort is
swallowed, teardown runs once on the aborted state, and the summary is FAILED. -/
theorem run_of_abort (w : World) (tc : TC) (stA stT : CaseState) (stg : String)
    (hsetup : setupTestRaw w (caseTbl tc) tc.setup tc.case (initState tc.idx tc.label) =
      (stA, some (stg, .testFailure)))
    (hfail : stA.failures ≠ [])
    (htd : teardownPhase w (caseTbl tc) tc.teardown stA false = (stT, false))
    (hfmt : formatRecords w stT.failures = .ok ()) :
    run w tc = ⟨stT, .returned (stT.failures.length + stT.errors.length) .failed true⟩ := by
  have h1 : stT.failures.length > 0 := by
    have hA : 0 < stA.failures.length := List.length_pos.mpr hfail
    have hle := failures_le_teardownPhase w (caseTbl tc) tc.teardown stA false
    rw [htd] at hle
    simp only at hle
    omega
  unfold run runPhases
  dsimp only
  rw [hsetup]
  dsimp only [handleMain]
  rw [htd]
  dsimp only
  unfold summaryPhase
  dsimp only
  rw [if_pos h1, hfmt]
  rfl

/-- **C1**: a false `assert_that` raised while executing a SETUP or TEST
directive aborts that stage — the directives after it are never run, so `run`
of the case truncated right after the aborting directive is the same run —
while the teardown phase is still applied exactly once to the aborted state
(the final state is exactly the `teardownPhase` result `stT`), and `run()`
returns the FAILED problem count, which is at least 1. -/
theorem caserunner_C1 (w : World) (tc : TC) (pre : List Segment) (seg : Segment)
    (post : List Segment) (inTest : Bool) (stPre stA stT : CaseState)
    (hstage : (if inTest then tc.case else tc.setup) = pre ++ seg :: post)
    (hpre : if inTest then
        ∃ stS, runStage w (caseTbl tc) (initState tc.idx tc.label) "SETUP" tc.setup =
            (stS, none) ∧
          runSegments w (caseTbl tc) (pushHeader w stS "TEST") pre = (stPre, none)
      else
        runSegments w (caseTbl tc) (pushHeader w (initState tc.idx tc.label) "SETUP") pre =
          (stPre, none))
    (hseg : run_segment w (caseTbl tc) stPre seg = (stA, some .testFailure))
    (hfail : stA.failures ≠ [])
    (htd : teardownPhase w (caseTbl tc) tc.teardown stA false = (stT, false))
    (hfmt : formatRecords w stT.failures = .ok ()) :
    run w tc = ⟨stT, .returned (stT.failures.length + stT.errors.length) .failed true⟩ ∧
    1 ≤ stT.failures.length + stT.errors.length ∧
    run w (if inTest then { tc with case := pre ++ [seg] }
           else { tc with setup := pre ++ [seg] }) = run w tc := by
  have hcount : 1 ≤ stT.failures.length + stT.errors.length := by
    have hA : 0 < stA.failures.length := List.length_pos.mpr hfail
    have hle := failures_le_teardownPhase w (caseTbl tc) tc.teardown stA false
    rw [htd] at hle
    simp only at hle
    omega
  cases inTest with
  | true =>
      simp only [if_true] at hstage hpre ⊢
      obtain ⟨stS, hS, hP⟩ := hpre
      have habort := setupTestRaw_test_abort w (caseTbl tc) tc.setup tc.case
        (initState tc.idx tc.label) stS stPre stA pre seg post .testFailure
        hS hstage hP hseg
      have hrun := run_of_abort w tc stA stT "TEST" habort hfail htd hfmt
      refine ⟨hrun, hcount, ?_⟩
      have habort2 : setupTestRaw w (caseTbl { tc with case := pre ++ [seg] })
          ({ tc with case := pre ++ [seg] } : TC).setup
          ({ tc with case := pre ++ [seg] } : TC).case
          (initState ({ tc with case := pre ++ [seg] } : TC).idx
            ({ tc with case := pre ++ [seg] } : TC).label) =
          (stA, some ("TEST", PyErr.testFailure)) :=
        setupTestRaw_test_abort w (caseTbl tc) tc.setup (pre ++ [seg])
          (initState tc.idx tc.label) stS stPre stA pre seg [] .testFailure
          hS rfl hP hseg
      have htd2 : teardownPhase w (caseTbl { tc with case := pre ++ [seg] })
          ({ tc with case := pre ++ [seg] } : TC).teardown stA false = (stT, false) := htd
      have hrun2 := run_of_abort w { tc with case := pre ++ [seg] } stA stT "TEST"
        habort2 hfail htd2 hfmt
      exact hrun2.trans hrun.symm
  | false =>
      simp only [Bool.false_eq_true, if_false] at hstage hpre ⊢
      have habort := setupTestRaw_setup_abort w (caseTbl tc) tc.setup tc.case
        (initState tc.idx tc.label) stPre stA pre seg post .testFailure
        hstage hpre hseg
      have hrun := run_of_abort w tc stA stT "SETUP" habort hfail htd hfmt
      refine ⟨hrun, hcount, ?_⟩
      have habort2 : setupTestRaw w (caseTbl { tc with setup := pre ++ [seg] })
          ({ tc with setup := pre ++ [seg] } : TC).setup
          ({ tc with setup := pre ++ [seg] } : TC).case
          (initState ({ tc with setup := pre ++ [seg] } : TC).idx
            ({ tc with setup := pre ++ [seg] } : TC).label) =
          (stA, some ("SETUP", PyErr.testFailure)) :=
        setupTestRaw_setup_abort w (caseTbl tc) (pre ++ [seg]) tc.case
          (initState tc.idx tc.label) stPre stA pre seg [] .testFailure
          rfl hpre hseg
      have htd2 : teardownPhase w (caseTbl { tc with setup := pre ++ [seg] })
          ({ tc with setup := pre ++ [seg] } : TC).teardown stA false = (stT, false) := htd
      have hrun2 := run_of_abort w { tc with setup := pre ++ [seg] } stA stT "SETUP"
        habort2 hfail htd2 hfmt
      exact hrun2.trans hrun.symm

/-- Witness for C1: the failing `assert_contains_any` in TEST gives a FAILED
run returning 1, and running the case without the skipped trailing directive
is the same run. -/
theorem caserunner_C1_witness :
    (run wBase tcAssert).result = .returned 1 .failed true ∧
    run wBase { tcAssert with case := [segAssertC1] } = run wBase tcAssert := by
  have h := caserunner_C1 wBase tcAssert [] segAssertC1 [segSkippedC1] true
    (pushHeader wBase
      (runStage wBase (caseTbl tcAssert) (initState tcAssert.idx tcAssert.label) "SETUP"
        tcAssert.setup).1 "TEST")
    (run_segment wBase (caseTbl tcAssert)
      (pushHeader wBase
        (runStage wBase (caseTbl tcAssert) (initState tcAssert.idx tcAssert.label) "SETUP"
          tcAssert.setup).1 "TEST") segAssertC1).1
    (teardownPhase wBase (caseTbl tcAssert) tcAssert.teardown
      (run_segment wBase (caseTbl tcAssert)
        (pushHeader wBase
          (runStage wBase (caseTbl tcAssert) (initState tcAssert.idx tcAssert.label) "SETUP"
            tcAssert.setup).1 "TEST") segAssertC1).1 false).1
    rfl ⟨_, rfl, rfl⟩ rfl (List.length_pos.mp (by decide)) rfl rfl
  refine ⟨?_, h.2.2⟩
  rw [h.1]
  rfl

/-!  ### C3: keyboard interrupts -/

/-- **C3** (counterexample to the claim as stated): with a TEST-stage call
whose launch raises the interrupt, `run` does re-raise the interrupt, but the
teardown stage's `log` directive still runs first — the teardown marker line
appears in the final transcript, and the interrupt Error is recorded —
contradicting "no teardown directives run after an interrupt in SETUP or
TEST". -/
theorem caserunner_C3_counterexample :
    (run wInterrupt tcInterrupt).result = .interrupted ∧
    strContainsSub (run wInterrupt tcInterrupt).state.output "TD-RAN" = true ∧
    (run wInterrupt tcInterrupt).state.errors.length = 1 := by
  exact ⟨rfl, rfl, rfl⟩

/-- **C3** (amended): a keyboard interrupt raised during SETUP or TEST is
recorded as an Error, logged to the transcript, and re-raised out of `run()`
(the run result is the propagated interrupt, with no summary) — but the
`finally` block still runs the TEARDOWN stage exactly once before the
interrupt propagates: the final state is exactly `teardownPhase` applied to
the post-handler state. -/
theorem caserunner_C3 (w : World) (tc : TC) (stA : CaseState) (stg : String)
    (hrun : setupTestRaw w (caseTbl tc) tc.setup tc.case (initState tc.idx tc.label) =
      (stA, some (stg, .keyboardInterrupt))) :
    (run w tc).result = .interrupted ∧
    (run w tc).state =
      (teardownPhase w (caseTbl tc) tc.teardown
        (printOutStr w
          (record_error stA ("KEYBOARD INTERRUPT in stage " ++ stg ++ " ")
            (.str "keyboard interrupt detected") [])
          ("KEYBOARD INTERRUPT in stage " ++ stg ++ " ")) true).1 := by
  unfold run runPhases
  dsimp only
  rw [hrun]
  dsimp only [handleMain]
  rw [if_pos (teardownPhase_pend_true w (caseTbl tc) tc.teardown _)]
  exact ⟨rfl, rfl⟩

/-- Witness for C3: the interrupted call in TEST propagates out of `run`. -/
theorem caserunner_C3_witness :
    (run wInterrupt tcInterrupt).result = .interrupted := by
  exact (caserunner_C3 wInterrupt tcInterrupt
    (setupTestRaw wInterrupt (caseTbl tcInterrupt) tcInterrupt.setup tcInterrupt.case
      (initState tcInterrupt.idx tcInterrupt.label)).1 "TEST" rfl).1

end Caserunner
